import Mathlib

/-!
Verification of the Relax expression-functor traversal core and the
TVMScript relax front-end helpers.

The development shallowly embeds:
* `src/python/tvm/script/parser/relax/entry.py` (`TensorProxy`, `Tensor`,
  `MatchCastPair`, `match_cast`),
* `src/python/tvm/script/ir_builder/relax/ir.py` (`call_packed`),
* `src/python/tvm/relax/expr_functor.py` (`PyExprVisitor`, `PyExprMutator`
  handler slots and the generic dispatchers).

The C++ traversal engine behind the `_ffi_api` calls is not part of the
repository sources; where a claim depends on it, the corresponding
definitions are modelled from the specification and carry a doc comment
saying so.
-/

namespace Relax

/-- Python exceptions relevant to the embedded code: `ValueError`,
`TypeError` and `NotImplementedError` (the latter carries no message in
the source). -/
inductive PyErr where
  | valueError (msg : String)
  | typeError (msg : String)
  | notImplementedError
deriving DecidableEq, Repr

/-- A shape dimension as it appears in a TVMScript shape annotation:
either a concrete `PrimExpr` (modelled as a natural number) or a string
to be evaluated later. -/
inductive Dim where
  | prim (n : Nat)
  | dstr (s : String)
deriving DecidableEq, Repr

/-- The Python value passed as the `shape` argument of `Tensor`: either a
string, a list of dimensions, or a tuple of dimensions (`None` is
represented by wrapping in `Option`). -/
inductive PyShapeArg where
  | strArg (s : String)
  | listArg (dims : List Dim)
  | tupleArg (dims : List Dim)
deriving DecidableEq, Repr

/-- Python `len()` of a `PyShapeArg` value. -/
def PyShapeArg.pyLen : PyShapeArg → Nat
  | .strArg s => s.length
  | .listArg dims => dims.length
  | .tupleArg dims => dims.length

/-- Class `TensorProxy` from `entry.py`: its `__init__` stores `shape`, `dtype`
and `ndim` verbatim.  After `Tensor` has validated its arguments the
stored shape is always `None`, a list or a tuple, so the model stores the
dimension list. -/
structure TensorProxy where
  shape : Option (List Dim)
  dtype : Option String
  ndim : Int
deriving DecidableEq, Repr

/-- Function `Tensor(shape, dtype, ndim)` from `entry.py`:
first the scalar-tensor normalization (`len(shape) == 0` turns the shape
into `[]`), then the reinterpretation of a string shape as the dtype when
`dtype is None`, then the list-or-tuple check raising `ValueError`, and
finally construction of the `TensorProxy`. -/
def Tensor (shape : Option PyShapeArg) (dtype : Option String) (ndim : Int) :
    Except PyErr TensorProxy :=
  -- scalar tensor case: `if shape is not None and len(shape) == 0: shape = []`
  let shape : Option PyShapeArg :=
    match shape with
    | some sa => if sa.pyLen = 0 then some (.listArg []) else some sa
    | none => none
  -- `if isinstance(shape, str) and dtype is None: dtype = shape; shape = None`
  let sd : Option PyShapeArg × Option String :=
    match shape, dtype with
    | some (.strArg s), none => (none, some s)
    | sh, dt => (sh, dt)
  -- `if shape is not None and not isinstance(shape, (tuple, list)): raise ValueError`
  match sd.1 with
  | some (.strArg s) => .error (.valueError ("shape must be a list or tuple, but got: " ++ s))
  | some (.listArg dims) => .ok ⟨some dims, sd.2, ndim⟩
  | some (.tupleArg dims) => .ok ⟨some dims, sd.2, ndim⟩
  | none => .ok ⟨none, sd.2, ndim⟩

/-- Struct info objects (`tvm.relax.struct_info`): the model keeps the
tensor variant in full and represents the remaining variants by an
opaque tag, which is all `call_packed` needs. -/
inductive StructInfo where
  | tensorSInfo (shape : Option (List Nat)) (dtype : Option String) (ndim : Int)
  | otherSInfo (tag : Nat)
deriving DecidableEq, Repr

/-- A relax expression in `entry.py`/`ir.py` signatures; opaque for the
purposes of `match_cast`. -/
structure EntryExpr where
  tag : Nat
deriving DecidableEq, Repr

/-- Class `MatchCastPair` from `entry.py`: stores `value` and `struct_info`
verbatim. -/
structure MatchCastPair where
  value : EntryExpr
  struct_info : StructInfo
deriving DecidableEq, Repr

/-- Function `match_cast(value, struct_info)` from `entry.py`: `ValueError` when
either argument is `None`, otherwise the `MatchCastPair` of the two. -/
def match_cast (value : Option EntryExpr) (struct_info : Option StructInfo) :
    Except PyErr MatchCastPair :=
  match value with
  | none => .error (.valueError "value of match_cast cannot be None")
  | some v =>
    match struct_info with
    | none => .error (.valueError "struct_info of match_cast cannot be None")
    | some s => .ok ⟨v, s⟩

/-- Modelled from the spec: the payload of a relax `Var`/`DataflowVar`
(§3 of the data model, which lives outside the examined sources): a
globally unique id, a display name, and the optional shape and type
annotations consulted by `with_shape_and_type`. -/
structure VarData where
  vid : Nat
  name : String
  shape : Option (List Nat)
  ty : Option Nat
deriving DecidableEq, Repr

/-- A variable reference together with its concrete kind: `df = true`
for `DataflowVar`, `df = false` for `Var`.  Used for binding left-hand
sides and for values of the var-remap table. -/
structure RVar where
  df : Bool
  v : VarData
deriving DecidableEq, Repr

mutual
/-- Modelled from the spec: the relax expression node kinds (§3), which
are defined outside the examined sources.  The constructors match the
closed per-kind handler set enumerated in `expr_functor.py`
(`visit_constant_` … `visit_tuple_getitem_`). -/
inductive Expr where
  | constant (value : Nat)
  | tuple (fields : List Expr)
  | evar (v : VarData)
  | dataflowVar (v : VarData)
  | shapeExpr (values : List Nat)
  | runtimeDepShape
  | externFunc (globalSymbol : String)
  | globalVar (name : String)
  | functionE (params : List RVar) (body : Expr)
  | call (op : Expr) (args : List Expr)
  | seqExpr (blocks : List BBlock) (body : Expr)
  | ifE (cond : Expr) (thenBranch : Expr) (elseBranch : Expr)
  | opNode (name : String)
  | tupleGetItem (tup : Expr) (index : Nat)

/-- Modelled from the spec: a binding (§3).  `varBinding` associates a
left-hand variable with a right-hand expression; `matchShape` binds an
optional variable to a value matched against a shape pattern (the
binding kinds enumerated by `visit_var_binding_` / `visit_match_shape_`). -/
inductive Binding where
  | varBinding (var : RVar) (value : Expr)
  | matchShape (var : Option RVar) (value : Expr) (pattern : List Nat)

/-- Modelled from the spec: a binding block (§3), plain or dataflow (the
block kinds enumerated by `visit_binding_block_` / `visit_dataflow_block_`). -/
inductive BBlock where
  | bindingBlock (bindings : List Binding)
  | dataflowBlock (bindings : List Binding)
end

/-- The expression form of a remap-table entry: a `DataflowVar` use or a
`Var` use according to the stored kind. -/
def RVar.toExpr (r : RVar) : Expr :=
  if r.df then .dataflowVar r.v else .evar r.v

/-- Method `TensorProxy.as_struct_info` from `entry.py`.  `dict_globals` is the
evaluation environment for string-defined shape dimensions; `_eval_shape`
(a Python `eval`) is modelled as a lookup in that environment.  When
`dict_globals` is `None` and the shape contains a string, a `ValueError`
is raised. -/
def TensorProxy.as_struct_info (p : TensorProxy) (dict_globals : Option (String → Nat)) :
    Except PyErr StructInfo :=
  match p.shape with
  | none => .ok (.tensorSInfo none p.dtype p.ndim)
  | some dims =>
    match dict_globals with
    | none =>
      if dims.any fun d => match d with | .dstr _ => true | .prim _ => false then
        .error (.valueError
          "String-defined shape expr is only allowed when parsing function parameters and return annotations for TVMScript.")
      else
        .ok (.tensorSInfo (some (dims.map fun d => match d with | .prim n => n | .dstr _ => 0))
          p.dtype p.ndim)
    | some g =>
      .ok (.tensorSInfo (some (dims.map fun d => match d with | .prim n => n | .dstr s => g s))
        p.dtype p.ndim)

/-- Method `StructInfoProxy.asobject` from `entry.py`: `as_struct_info(None)`. -/
def TensorProxy.asobject (p : TensorProxy) : Except PyErr StructInfo :=
  p.as_struct_info none

/-- A Python value appearing as one element of `call_packed`'s
`sinfo_args`: a ready `StructInfo` object, a struct-info proxy
(`ObjectGeneric`), or a callable returning a proxy (the `R.Tensor`
idiom). -/
inductive SElem where
  | sinfo (s : StructInfo)
  | proxy (p : TensorProxy)
  | callableP (p : TensorProxy)

/-- The Python value passed as `call_packed`'s `sinfo_args` keyword:
`None`, a single element, a tuple of elements, or a list of elements. -/
inductive SinfoParam where
  | pynone
  | single (x : SElem)
  | tup (xs : List SElem)
  | lst (xs : List SElem)

/-- The per-element conversion inside `call_packed`'s loop: a callable is
called (yielding its proxy), then an `ObjectGeneric` is converted via
`asobject`; a plain `StructInfo` passes through. -/
def convert_sinfo_arg : SElem → Except PyErr StructInfo
  | .sinfo s => .ok s
  | .proxy p => p.asobject
  | .callableP p => p.asobject

/-- The conversion loop of `call_packed` over all normalized
`sinfo_args` elements, propagating the first raised exception. -/
def convert_sinfo_args : List SElem → Except PyErr (List StructInfo)
  | [] => .ok []
  | x :: xs =>
    match convert_sinfo_arg x with
    | .error e => .error e
    | .ok s =>
      match convert_sinfo_args xs with
      | .error e => .error e
      | .ok ss => .ok (s :: ss)

/-- An attributes node produced by `tvm.ir.attrs.make_node`, modelled by
its type key and keyword fields. -/
structure AttrsNode where
  type_key : String
  fields : List (String × String)
deriving DecidableEq, Repr

/-- A relax `Call` node as constructed by `call_packed`: callee
expression, arguments, optional attributes, struct-info arguments. -/
structure RelaxCall where
  op : Expr
  args : List Expr
  attrs : Option AttrsNode
  sinfo_args : List StructInfo

/-- The tail of `call_packed` after the `sinfo_args` normalization: the
per-element conversion loop, the assembly of the optional attributes
node from the keyword arguments, and the final `Call`. -/
def call_packed_tail (op : Expr) (args : List Expr) (elems : List SElem)
    (kwargs : List (String × String)) : Except PyErr RelaxCall :=
  match convert_sinfo_args elems with
  | .error e => .error e
  | .ok ss =>
    let keyed := List.lookup "attrs_type_key" kwargs
    let attrs_type_key := match keyed with | some v => v | none => "DictAttrs"
    let is_default := keyed.isNone
    let kwargs2 := match keyed with
      | some _ => kwargs.filter fun kv => kv.1 ≠ "attrs_type_key"
      | none => kwargs
    let attrs : Option AttrsNode :=
      if kwargs2 ≠ [] ∨ is_default = false then some ⟨attrs_type_key, kwargs2⟩ else none
    .ok ⟨op, args, attrs, ss⟩

/-- Function `call_packed(func, *args, sinfo_args, **kwargs)` from `ir.py`:
builds `ExternFunc(func)`, raises `ValueError` on a `None` `sinfo_args`,
normalizes `sinfo_args` into a list (a tuple becomes a list, a single
struct info becomes a one-element list), converts each element to a
`StructInfo`, assembles the optional attributes node from the remaining
keyword arguments, and returns the `Call`. -/
def call_packed (func : String) (args : List Expr) (sinfo_args : SinfoParam)
    (kwargs : List (String × String)) : Except PyErr RelaxCall :=
  let op := Expr.externFunc func
  match sinfo_args with
  | .pynone => .error (.valueError "R.call_packed is required to have type_args")
  | .tup xs => call_packed_tail op args xs kwargs
  | .lst xs => call_packed_tail op args xs kwargs
  | .single x => call_packed_tail op args [x] kwargs

/-- The handler-slot configuration of `_PyExprVisitor.__init__` from
`expr_functor.py`: one optional callable per slot, in the order of the
constructor's parameters.  A slot left `none` corresponds to a handler
the caller did not supply. -/
structure VisCfg where
  f_visit_expr : Option (Expr → Except PyErr Unit) := none
  f_visit_constant_ : Option (Expr → Except PyErr Unit) := none
  f_visit_tuple_ : Option (Expr → Except PyErr Unit) := none
  f_visit_var_ : Option (Expr → Except PyErr Unit) := none
  f_visit_dataflow_var_ : Option (Expr → Except PyErr Unit) := none
  f_visit_shape_expr_ : Option (Expr → Except PyErr Unit) := none
  f_visit_runtime_dep_shape_ : Option (Expr → Except PyErr Unit) := none
  f_visit_extern_func_ : Option (Expr → Except PyErr Unit) := none
  f_visit_global_var_ : Option (Expr → Except PyErr Unit) := none
  f_visit_function_ : Option (Expr → Except PyErr Unit) := none
  f_visit_call_ : Option (Expr → Except PyErr Unit) := none
  f_visit_seq_expr_ : Option (Expr → Except PyErr Unit) := none
  f_visit_if_ : Option (Expr → Except PyErr Unit) := none
  f_visit_op_ : Option (Expr → Except PyErr Unit) := none
  f_visit_tuple_getitem_ : Option (Expr → Except PyErr Unit) := none
  f_visit_binding : Option (Binding → Except PyErr Unit) := none
  f_visit_var_binding_ : Option (Binding → Except PyErr Unit) := none
  f_visit_match_shape_ : Option (Binding → Except PyErr Unit) := none
  f_visit_binding_block : Option (BBlock → Except PyErr Unit) := none
  f_visit_binding_block_ : Option (BBlock → Except PyErr Unit) := none
  f_visit_dataflow_block_ : Option (BBlock → Except PyErr Unit) := none
  f_visit_var_def : Option (RVar → Except PyErr Unit) := none
  f_visit_var_def_ : Option (RVar → Except PyErr Unit) := none
  f_visit_dataflow_var_def_ : Option (RVar → Except PyErr Unit) := none
  f_visit_type : Option (Nat → Except PyErr Unit) := none
  f_visit_span : Option (Nat → Except PyErr Unit) := none

/-- The visitor instance with every handler slot unsupplied. -/
def defaultVisCfg : VisCfg := {}

namespace PyExprVisitor

/-- Modelled from the spec: the generic var-definition dispatcher of the
visitor engine (the C++ `VisitVarDef` behind `_ffi_api`, not in the
sources): dispatch on the variable kind to the supplied handler, with a
do-nothing deep-recurse default (§4.2). -/
def visit_var_def (cfg : VisCfg) (r : RVar) : Except PyErr Unit :=
  match cfg.f_visit_var_def with
  | some f => f r
  | none =>
    if r.df then
      match cfg.f_visit_dataflow_var_def_ with
      | some f => f r
      | none => .ok ()
    else
      match cfg.f_visit_var_def_ with
      | some f => f r
      | none => .ok ()

/-- Modelled from the spec: default recursion of the visitor engine over
a parameter list (each parameter is a variable definition site, §4.2). -/
def visit_var_def_list (cfg : VisCfg) : List RVar → Except PyErr Unit
  | [] => .ok ()
  | r :: rs =>
    match visit_var_def cfg r with
    | .error e => .error e
    | .ok _ => visit_var_def_list cfg rs

mutual
/-- Modelled from the spec: the generic expression dispatcher of the
visitor engine (the C++ `VisitExpr` behind `_ffi_api`, not in the
sources): an overriding `f_visit_expr` takes over; otherwise dispatch on
the node kind to the supplied per-kind handler, or to the default
left-to-right recursion into every child when the handler is unsupplied
(§4.1–§4.2). -/
def visit_expr (cfg : VisCfg) (e : Expr) : Except PyErr Unit :=
  match cfg.f_visit_expr with
  | some f => f e
  | none =>
    match e with
    | .constant _ =>
      match cfg.f_visit_constant_ with
      | some f => f e
      | none => .ok ()
    | .tuple fields =>
      match cfg.f_visit_tuple_ with
      | some f => f e
      | none => visit_expr_list cfg fields
    | .evar _ =>
      match cfg.f_visit_var_ with
      | some f => f e
      | none => .ok ()
    | .dataflowVar _ =>
      match cfg.f_visit_dataflow_var_ with
      | some f => f e
      | none => .ok ()
    | .shapeExpr _ =>
      match cfg.f_visit_shape_expr_ with
      | some f => f e
      | none => .ok ()
    | .runtimeDepShape =>
      match cfg.f_visit_runtime_dep_shape_ with
      | some f => f e
      | none => .ok ()
    | .externFunc _ =>
      match cfg.f_visit_extern_func_ with
      | some f => f e
      | none => .ok ()
    | .globalVar _ =>
      match cfg.f_visit_global_var_ with
      | some f => f e
      | none => .ok ()
    | .functionE params body =>
      match cfg.f_visit_function_ with
      | some f => f e
      | none =>
        match visit_var_def_list cfg params with
        | .error err => .error err
        | .ok _ => visit_expr cfg body
    | .call op args =>
      match cfg.f_visit_call_ with
      | some f => f e
      | none =>
        match visit_expr cfg op with
        | .error err => .error err
        | .ok _ => visit_expr_list cfg args
    | .seqExpr blocks body =>
      match cfg.f_visit_seq_expr_ with
      | some f => f e
      | none =>
        match visit_block_list cfg blocks with
        | .error err => .error err
        | .ok _ => visit_expr cfg body
    | .ifE cond thenBranch elseBranch =>
      match cfg.f_visit_if_ with
      | some f => f e
      | none =>
        match visit_expr cfg cond with
        | .error err => .error err
        | .ok _ =>
          match visit_expr cfg thenBranch with
          | .error err => .error err
          | .ok _ => visit_expr cfg elseBranch
    | .opNode _ =>
      match cfg.f_visit_op_ with
      | some f => f e
      | none => .ok ()
    | .tupleGetItem tup _ =>
      match cfg.f_visit_tuple_getitem_ with
      | some f => f e
      | none => visit_expr cfg tup

/-- Default left-to-right recursion of the visitor over a list of
sub-expressions. -/
def visit_expr_list (cfg : VisCfg) : List Expr → Except PyErr Unit
  | [] => .ok ()
  | x :: xs =>
    match visit_expr cfg x with
    | .error e => .error e
    | .ok _ => visit_expr_list cfg xs

/-- Modelled from the spec: the generic binding dispatcher of the
visitor engine (the C++ `VisitBinding` behind `_ffi_api`, not in the
sources): dispatch on the binding kind to `visit_var_binding_` or
`visit_match_shape_`, with a default that visits the bound value and the
defined variable (§4.2). -/
def visit_binding (cfg : VisCfg) (b : Binding) : Except PyErr Unit :=
  match cfg.f_visit_binding with
  | some f => f b
  | none =>
    match b with
    | .varBinding var value =>
      match cfg.f_visit_var_binding_ with
      | some f => f b
      | none =>
        match visit_expr cfg value with
        | .error err => .error err
        | .ok _ => visit_var_def cfg var
    | .matchShape var value _ =>
      match cfg.f_visit_match_shape_ with
      | some f => f b
      | none =>
        match visit_expr cfg value with
        | .error err => .error err
        | .ok _ =>
          match var with
          | some r => visit_var_def cfg r
          | none => .ok ()

/-- Default recursion of the visitor over the bindings of a block. -/
def visit_binding_list (cfg : VisCfg) : List Binding → Except PyErr Unit
  | [] => .ok ()
  | b :: bs =>
    match visit_binding cfg b with
    | .error e => .error e
    | .ok _ => visit_binding_list cfg bs

/-- Modelled from the spec: the generic binding-block dispatcher of the
visitor engine (the C++ `VisitBindingBlock` behind `_ffi_api`, not in
the sources): dispatch on the block kind to `visit_binding_block_` or
`visit_dataflow_block_`, with a default that visits every binding in
order (§4.2). -/
def visit_binding_block (cfg : VisCfg) (bl : BBlock) : Except PyErr Unit :=
  match cfg.f_visit_binding_block with
  | some f => f bl
  | none =>
    match bl with
    | .bindingBlock bindings =>
      match cfg.f_visit_binding_block_ with
      | some f => f bl
      | none => visit_binding_list cfg bindings
    | .dataflowBlock bindings =>
      match cfg.f_visit_dataflow_block_ with
      | some f => f bl
      | none => visit_binding_list cfg bindings

/-- Default recursion of the visitor over a list of binding blocks. -/
def visit_block_list (cfg : VisCfg) : List BBlock → Except PyErr Unit
  | [] => .ok ()
  | bl :: bls =>
    match visit_binding_block cfg bl with
    | .error e => .error e
    | .ok _ => visit_block_list cfg bls
end

/-- Method `PyExprVisitor.visit_constant_`: the supplied override, else the
base-class body `raise NotImplementedError`. -/
def visit_constant_ (cfg : VisCfg) (op : Expr) : Except PyErr Unit :=
  match cfg.f_visit_constant_ with
  | some f => f op
  | none => .error .notImplementedError

/-- Method `PyExprVisitor.visit_tuple_`: override, else `raise NotImplementedError`. -/
def visit_tuple_ (cfg : VisCfg) (op : Expr) : Except PyErr Unit :=
  match cfg.f_visit_tuple_ with
  | some f => f op
  | none => .error .notImplementedError

/-- Method `PyExprVisitor.visit_var_`: override, else `raise NotImplementedError`. -/
def visit_var_ (cfg : VisCfg) (op : Expr) : Except PyErr Unit :=
  match cfg.f_visit_var_ with
  | some f => f op
  | none => .error .notImplementedError

/-- Method `PyExprVisitor.visit_dataflow_var_`: override, else `raise NotImplementedError`. -/
def visit_dataflow_var_ (cfg : VisCfg) (op : Expr) : Except PyErr Unit :=
  match cfg.f_visit_dataflow_var_ with
  | some f => f op
  | none => .error .notImplementedError

/-- Method `PyExprVisitor.visit_shape_expr_`: override, else `raise NotImplementedError`. -/
def visit_shape_expr_ (cfg : VisCfg) (op : Expr) : Except PyErr Unit :=
  match cfg.f_visit_shape_expr_ with
  | some f => f op
  | none => .error .notImplementedError

/-- Method `PyExprVisitor.visit_runtime_dep_shape_`: override, else `raise NotImplementedError`. -/
def visit_runtime_dep_shape_ (cfg : VisCfg) (op : Expr) : Except PyErr Unit :=
  match cfg.f_visit_runtime_dep_shape_ with
  | some f => f op
  | none => .error .notImplementedError

/-- Method `PyExprVisitor.visit_extern_func_`: override, else `raise NotImplementedError`. -/
def visit_extern_func_ (cfg : VisCfg) (op : Expr) : Except PyErr Unit :=
  match cfg.f_visit_extern_func_ with
  | some f => f op
  | none => .error .notImplementedError

/-- Method `PyExprVisitor.visit_global_var_`: override, else `raise NotImplementedError`. -/
def visit_global_var_ (cfg : VisCfg) (op : Expr) : Except PyErr Unit :=
  match cfg.f_visit_global_var_ with
  | some f => f op
  | none => .error .notImplementedError

/-- Method `PyExprVisitor.visit_function_`: override, else `raise NotImplementedError`. -/
def visit_function_ (cfg : VisCfg) (op : Expr) : Except PyErr Unit :=
  match cfg.f_visit_function_ with
  | some f => f op
  | none => .error .notImplementedError

/-- Method `PyExprVisitor.visit_call_`: override, else `raise NotImplementedError`. -/
def visit_call_ (cfg : VisCfg) (op : Expr) : Except PyErr Unit :=
  match cfg.f_visit_call_ with
  | some f => f op
  | none => .error .notImplementedError

/-- Method `PyExprVisitor.visit_seq_expr_`: override, else `raise NotImplementedError`. -/
def visit_seq_expr_ (cfg : VisCfg) (op : Expr) : Except PyErr Unit :=
  match cfg.f_visit_seq_expr_ with
  | some f => f op
  | none => .error .notImplementedError

/-- Method `PyExprVisitor.visit_if_`: override, else `raise NotImplementedError`. -/
def visit_if_ (cfg : VisCfg) (op : Expr) : Except PyErr Unit :=
  match cfg.f_visit_if_ with
  | some f => f op
  | none => .error .notImplementedError

/-- Method `PyExprVisitor.visit_op_`: override, else `raise NotImplementedError`. -/
def visit_op_ (cfg : VisCfg) (op : Expr) : Except PyErr Unit :=
  match cfg.f_visit_op_ with
  | some f => f op
  | none => .error .notImplementedError

/-- Method `PyExprVisitor.visit_tuple_getitem_`: override, else `raise NotImplementedError`. -/
def visit_tuple_getitem_ (cfg : VisCfg) (op : Expr) : Except PyErr Unit :=
  match cfg.f_visit_tuple_getitem_ with
  | some f => f op
  | none => .error .notImplementedError

/-- Method `PyExprVisitor.visit_var_binding_`: override, else `raise NotImplementedError`. -/
def visit_var_binding_ (cfg : VisCfg) (binding : Binding) : Except PyErr Unit :=
  match cfg.f_visit_var_binding_ with
  | some f => f binding
  | none => .error .notImplementedError

/-- Method `PyExprVisitor.visit_match_shape_`: override, else `raise NotImplementedError`. -/
def visit_match_shape_ (cfg : VisCfg) (binding : Binding) : Except PyErr Unit :=
  match cfg.f_visit_match_shape_ with
  | some f => f binding
  | none => .error .notImplementedError

/-- Method `PyExprVisitor.visit_binding_block_`: override, else `raise NotImplementedError`. -/
def visit_binding_block_ (cfg : VisCfg) (block : BBlock) : Except PyErr Unit :=
  match cfg.f_visit_binding_block_ with
  | some f => f block
  | none => .error .notImplementedError

/-- Method `PyExprVisitor.visit_dataflow_block_`: override, else `raise NotImplementedError`. -/
def visit_dataflow_block_ (cfg : VisCfg) (block : BBlock) : Except PyErr Unit :=
  match cfg.f_visit_dataflow_block_ with
  | some f => f block
  | none => .error .notImplementedError

/-- Method `PyExprVisitor.visit_var_def_`: override, else `raise NotImplementedError`. -/
def visit_var_def_ (cfg : VisCfg) (var : RVar) : Except PyErr Unit :=
  match cfg.f_visit_var_def_ with
  | some f => f var
  | none => .error .notImplementedError

/-- Method `PyExprVisitor.visit_dataflow_var_def_`: override, else `raise NotImplementedError`. -/
def visit_dataflow_var_def_ (cfg : VisCfg) (var : RVar) : Except PyErr Unit :=
  match cfg.f_visit_dataflow_var_def_ with
  | some f => f var
  | none => .error .notImplementedError

/-- Method `PyExprVisitor.visit_type`: override, else `raise NotImplementedError`. -/
def visit_type (cfg : VisCfg) (t : Nat) : Except PyErr Unit :=
  match cfg.f_visit_type with
  | some f => f t
  | none => .error .notImplementedError

/-- Method `PyExprVisitor.visit_span`: override, else `raise NotImplementedError`. -/
def visit_span (cfg : VisCfg) (span : Nat) : Except PyErr Unit :=
  match cfg.f_visit_span with
  | some f => f span
  | none => .error .notImplementedError

end PyExprVisitor

/-- Modelled from the spec: the mutator's traversal state (§4.3), held
by the C++ engine and block builder behind `_ffi_api`: the variable
remap table keyed by variable id, the block builder's binding table
from variable id to bound value, and the bindings emitted into the
block currently under construction. -/
structure MState where
  remap : List (Nat × RVar)
  bindingTable : List (Nat × Expr)
  emitted : List Binding

/-- The handler-slot configuration of `_PyExprMutator.__init__` from
`expr_functor.py` (the `builder` argument is part of `MState`): one
optional callable per slot, in the order of the constructor's
parameters, the 14 post-order rewrite hooks last. -/
structure MutCfg where
  f_visit_expr : Option (Expr → Except PyErr Expr) := none
  f_visit_constant_ : Option (Expr → Except PyErr Expr) := none
  f_visit_tuple_ : Option (Expr → Except PyErr Expr) := none
  f_visit_var_ : Option (Expr → Except PyErr Expr) := none
  f_visit_dataflow_var_ : Option (Expr → Except PyErr Expr) := none
  f_visit_shape_expr_ : Option (Expr → Except PyErr Expr) := none
  f_visit_runtime_dep_shape_ : Option (Expr → Except PyErr Expr) := none
  f_visit_extern_func_ : Option (Expr → Except PyErr Expr) := none
  f_visit_global_var_ : Option (Expr → Except PyErr Expr) := none
  f_visit_function_ : Option (Expr → Except PyErr Expr) := none
  f_visit_call_ : Option (Expr → Except PyErr Expr) := none
  f_visit_seq_expr_ : Option (Expr → Except PyErr Expr) := none
  f_visit_if_ : Option (Expr → Except PyErr Expr) := none
  f_visit_op_ : Option (Expr → Except PyErr Expr) := none
  f_visit_tuple_getitem_ : Option (Expr → Except PyErr Expr) := none
  f_visit_binding : Option (Binding → MState → Except PyErr MState) := none
  f_visit_var_binding_ : Option (Binding → MState → Except PyErr MState) := none
  f_visit_match_shape_ : Option (Binding → MState → Except PyErr MState) := none
  f_visit_binding_block : Option (BBlock → MState → Except PyErr (BBlock × MState)) := none
  f_visit_binding_block_ : Option (BBlock → MState → Except PyErr (BBlock × MState)) := none
  f_visit_dataflow_block_ : Option (BBlock → MState → Except PyErr (BBlock × MState)) := none
  f_visit_var_def : Option (RVar → MState → Except PyErr (RVar × MState)) := none
  f_visit_var_def_ : Option (RVar → MState → Except PyErr (RVar × MState)) := none
  f_visit_dataflow_var_def_ : Option (RVar → MState → Except PyErr (RVar × MState)) := none
  f_visit_type : Option (Nat → Except PyErr Nat) := none
  f_visit_span : Option (Nat → Except PyErr Nat) := none
  f_rewrite_constant_post_order : Option (Expr → Except PyErr Expr) := none
  f_rewrite_tuple_post_order : Option (Expr → Except PyErr Expr) := none
  f_rewrite_var_post_order : Option (Expr → Except PyErr Expr) := none
  f_rewrite_dataflow_var_post_order : Option (Expr → Except PyErr Expr) := none
  f_rewrite_shape_expr_post_order : Option (Expr → Except PyErr Expr) := none
  f_rewrite_runtime_dep_shape_post_order : Option (Expr → Except PyErr Expr) := none
  f_rewrite_extern_func_post_order : Option (Expr → Except PyErr Expr) := none
  f_rewrite_global_var_post_order : Option (Expr → Except PyErr Expr) := none
  f_rewrite_function_post_order : Option (Expr → Except PyErr Expr) := none
  f_rewrite_call_post_order : Option (Expr → Except PyErr Expr) := none
  f_rewrite_seq_expr_post_order : Option (Expr → Except PyErr Expr) := none
  f_rewrite_if_post_order : Option (Expr → Except PyErr Expr) := none
  f_rewrite_op_post_order : Option (Expr → Except PyErr Expr) := none
  f_rewrite_tuple_getitem_post_order : Option (Expr → Except PyErr Expr) := none

/-- The mutator instance with every handler slot and hook unsupplied. -/
def defaultMutCfg : MutCfg := {}

/-- The mutator instance with no direct overrides and every post-order
rewrite hook supplied as the identity function. -/
def idHooksMutCfg : MutCfg where
  f_rewrite_constant_post_order := some fun e => .ok e
  f_rewrite_tuple_post_order := some fun e => .ok e
  f_rewrite_var_post_order := some fun e => .ok e
  f_rewrite_dataflow_var_post_order := some fun e => .ok e
  f_rewrite_shape_expr_post_order := some fun e => .ok e
  f_rewrite_runtime_dep_shape_post_order := some fun e => .ok e
  f_rewrite_extern_func_post_order := some fun e => .ok e
  f_rewrite_global_var_post_order := some fun e => .ok e
  f_rewrite_function_post_order := some fun e => .ok e
  f_rewrite_call_post_order := some fun e => .ok e
  f_rewrite_seq_expr_post_order := some fun e => .ok e
  f_rewrite_if_post_order := some fun e => .ok e
  f_rewrite_op_post_order := some fun e => .ok e
  f_rewrite_tuple_getitem_post_order := some fun e => .ok e

namespace PyExprMutator

/-- Method `PyExprMutator.set_var_remap(vid, var)`: record `vid ↦ var` in the
remap table (modelled from the spec, §4.3; the map itself lives in the
C++ engine). -/
def set_var_remap (st : MState) (vid : Nat) (var : RVar) : MState :=
  { st with remap := (vid, var) :: st.remap }

/-- Method `PyExprMutator.get_var_remap(vid)`: the replacement registered for
`vid`, if any (modelled from the spec, §4.3). -/
def get_var_remap (st : MState) (vid : Nat) : Option RVar :=
  List.lookup vid st.remap

/-- Method `PyExprMutator.lookup_binding(var)`: the value most recently
recorded for the variable's id in the block builder's binding table
(modelled from the spec, §4.3; the table lives in the C++ block
builder). -/
def lookup_binding (st : MState) (var : RVar) : Option Expr :=
  List.lookup var.v.vid st.bindingTable

/-- Method `PyExprMutator.with_shape_and_type(var, shape, t)`: a new variable
node carrying the specified shape and type when the original variable's
shape or type does not match the specified ones, otherwise the original
variable (modelled from the spec and the method's documented contract in
`expr_functor.py`; the body lives in the C++ engine). -/
def with_shape_and_type (var : RVar) (shape : Option (List Nat)) (t : Option Nat) : RVar :=
  if var.v.shape = shape ∧ var.v.ty = t then var
  else ⟨var.df, { var.v with shape := shape, ty := t }⟩

/-- Modelled from the spec: the struct-info (shape component) of a
rewritten right-hand value, as computed by the external inference
collaborator (§6). -/
def exprShapeOf : Expr → Option (List Nat)
  | .evar v => v.shape
  | .dataflowVar v => v.shape
  | .shapeExpr values => some values
  | _ => none

/-- Modelled from the spec: the struct-info (type component) of a
rewritten right-hand value, as computed by the external inference
collaborator (§6). -/
def exprTyOf : Expr → Option Nat
  | .evar v => v.ty
  | .dataflowVar v => v.ty
  | _ => none

/-- Modelled from the spec: emitting one binding into the block under
construction (§4.3): the binding is appended to the builder's
accumulator and, when it defines a variable, the variable's id is
recorded in the binding table with its bound value. -/
def emit_binding (st : MState) (b : Binding) : MState :=
  let table :=
    match b with
    | .varBinding var value => (var.v.vid, value) :: st.bindingTable
    | .matchShape (some var) value _ => (var.v.vid, value) :: st.bindingTable
    | .matchShape none _ _ => st.bindingTable
  { st with emitted := st.emitted ++ [b], bindingTable := table }

/-- The post-order hook application step documented in
`expr_functor.py` (`rewrite_<kind>_post_order` doc comments): the
reconstructed node is passed to the user hook when one is supplied,
and is returned unchanged otherwise. -/
def post_order_step (hook : Option (Expr → Except PyErr Expr)) (r : Expr) (st : MState) :
    Except PyErr (Expr × MState) :=
  match hook with
  | some f =>
    match f r with
    | .error e => .error e
    | .ok r' => .ok (r', st)
  | none => .ok (r, st)

/-- Modelled from the spec: the generic var-definition dispatcher of the
mutator engine (the C++ `VisitVarDef` behind `_ffi_api`, not in the
sources): dispatch on the variable kind to the supplied handler or the
default (which keeps the variable), then register the remap entry when
the produced variable differs from the original (§4.3). -/
def visit_var_def (cfg : MutCfg) (st : MState) (r : RVar) : Except PyErr (RVar × MState) :=
  let dispatched : Except PyErr (RVar × MState) :=
    match cfg.f_visit_var_def with
    | some f => f r st
    | none =>
      if r.df then
        match cfg.f_visit_dataflow_var_def_ with
        | some f => f r st
        | none => .ok (r, st)
      else
        match cfg.f_visit_var_def_ with
        | some f => f r st
        | none => .ok (r, st)
  match dispatched with
  | .error e => .error e
  | .ok (r', st') =>
    if r' = r then .ok (r', st') else .ok (r', set_var_remap st' r.v.vid r')

/-- Default recursion of the mutator over a parameter list (each
parameter visited as a variable definition site). -/
def visit_var_def_list (cfg : MutCfg) (st : MState) :
    List RVar → Except PyErr (List RVar × MState)
  | [] => .ok ([], st)
  | r :: rs =>
    match visit_var_def cfg st r with
    | .error e => .error e
    | .ok (r', st') =>
      match visit_var_def_list cfg st' rs with
      | .error e => .error e
      | .ok (rs', st'') => .ok (r' :: rs', st'')

mutual
/-- Modelled from the spec: the generic expression dispatcher of the
mutator engine (the C++ `VisitExpr` behind `_ffi_api`, not in the
sources): an overriding `f_visit_expr` takes over; otherwise dispatch on
the node kind to the supplied direct override, or to the default
post-order transform — recurse into the children, rebuild the node,
consult the var-remap table at `Var`/`DataflowVar` use sites, and pass
the reconstructed node to the post-order rewrite hook when one is
supplied (§4.3 and the `rewrite_<kind>_post_order` doc comments in
`expr_functor.py`). -/
def visit_expr (cfg : MutCfg) (st : MState) (e : Expr) : Except PyErr (Expr × MState) :=
  match cfg.f_visit_expr with
  | some f =>
    match f e with
    | .error err => .error err
    | .ok e' => .ok (e', st)
  | none =>
    match e with
    | .constant _ =>
      match cfg.f_visit_constant_ with
      | some f =>
        match f e with
        | .error err => .error err
        | .ok e' => .ok (e', st)
      | none => post_order_step cfg.f_rewrite_constant_post_order e st
    | .tuple fields =>
      match cfg.f_visit_tuple_ with
      | some f =>
        match f e with
        | .error err => .error err
        | .ok e' => .ok (e', st)
      | none =>
        match visit_expr_list cfg st fields with
        | .error err => .error err
        | .ok (fields', st1) =>
          post_order_step cfg.f_rewrite_tuple_post_order (.tuple fields') st1
    | .evar v =>
      match cfg.f_visit_var_ with
      | some f =>
        match f e with
        | .error err => .error err
        | .ok e' => .ok (e', st)
      | none =>
        let r : Expr :=
          match List.lookup v.vid st.remap with
          | some w => w.toExpr
          | none => .evar v
        post_order_step cfg.f_rewrite_var_post_order r st
    | .dataflowVar v =>
      match cfg.f_visit_dataflow_var_ with
      | some f =>
        match f e with
        | .error err => .error err
        | .ok e' => .ok (e', st)
      | none =>
        let r : Expr :=
          match List.lookup v.vid st.remap with
          | some w => w.toExpr
          | none => .dataflowVar v
        post_order_step cfg.f_rewrite_dataflow_var_post_order r st
    | .shapeExpr _ =>
      match cfg.f_visit_shape_expr_ with
      | some f =>
        match f e with
        | .error err => .error err
        | .ok e' => .ok (e', st)
      | none => post_order_step cfg.f_rewrite_shape_expr_post_order e st
    | .runtimeDepShape =>
      match cfg.f_visit_runtime_dep_shape_ with
      | some f =>
        match f e with
        | .error err => .error err
        | .ok e' => .ok (e', st)
      | none => post_order_step cfg.f_rewrite_runtime_dep_shape_post_order e st
    | .externFunc _ =>
      match cfg.f_visit_extern_func_ with
      | some f =>
        match f e with
        | .error err => .error err
        | .ok e' => .ok (e', st)
      | none => post_order_step cfg.f_rewrite_extern_func_post_order e st
    | .globalVar _ =>
      match cfg.f_visit_global_var_ with
      | some f =>
        match f e with
        | .error err => .error err
        | .ok e' => .ok (e', st)
      | none => post_order_step cfg.f_rewrite_global_var_post_order e st
    | .functionE params body =>
      match cfg.f_visit_function_ with
      | some f =>
        match f e with
        | .error err => .error err
        | .ok e' => .ok (e', st)
      | none =>
        match visit_var_def_list cfg st params with
        | .error err => .error err
        | .ok (params', st1) =>
          -- the function body is visited with a new scope (§4.3)
          match visit_expr cfg st1 body with
          | .error err => .error err
          | .ok (body', st2) =>
            post_order_step cfg.f_rewrite_function_post_order
              (.functionE params' body') { st2 with remap := st1.remap }
    | .call op args =>
      match cfg.f_visit_call_ with
      | some f =>
        match f e with
        | .error err => .error err
        | .ok e' => .ok (e', st)
      | none =>
        match visit_expr cfg st op with
        | .error err => .error err
        | .ok (op', st1) =>
          match visit_expr_list cfg st1 args with
          | .error err => .error err
          | .ok (args', st2) =>
            post_order_step cfg.f_rewrite_call_post_order (.call op' args') st2
    | .seqExpr blocks body =>
      match cfg.f_visit_seq_expr_ with
      | some f =>
        match f e with
        | .error err => .error err
        | .ok e' => .ok (e', st)
      | none =>
        match visit_block_list cfg st blocks with
        | .error err => .error err
        | .ok (blocks', st1) =>
          match visit_expr cfg st1 body with
          | .error err => .error err
          | .ok (body', st2) =>
            post_order_step cfg.f_rewrite_seq_expr_post_order (.seqExpr blocks' body') st2
    | .ifE cond thenBranch elseBranch =>
      match cfg.f_visit_if_ with
      | some f =>
        match f e with
        | .error err => .error err
        | .ok e' => .ok (e', st)
      | none =>
        match visit_expr cfg st cond with
        | .error err => .error err
        | .ok (cond', st1) =>
          -- each branch is visited with a new scope (§4.3)
          match visit_expr cfg st1 thenBranch with
          | .error err => .error err
          | .ok (then', st2) =>
            match visit_expr cfg { st2 with remap := st1.remap } elseBranch with
            | .error err => .error err
            | .ok (else', st3) =>
              post_order_step cfg.f_rewrite_if_post_order
                (.ifE cond' then' else') { st3 with remap := st1.remap }
    | .opNode _ =>
      match cfg.f_visit_op_ with
      | some f =>
        match f e with
        | .error err => .error err
        | .ok e' => .ok (e', st)
      | none => post_order_step cfg.f_rewrite_op_post_order e st
    | .tupleGetItem tup index =>
      match cfg.f_visit_tuple_getitem_ with
      | some f =>
        match f e with
        | .error err => .error err
        | .ok e' => .ok (e', st)
      | none =>
        match visit_expr cfg st tup with
        | .error err => .error err
        | .ok (tup', st1) =>
          post_order_step cfg.f_rewrite_tuple_getitem_post_order
            (.tupleGetItem tup' index) st1

/-- Default left-to-right recursion of the mutator over a list of
sub-expressions, threading the traversal state. -/
def visit_expr_list (cfg : MutCfg) (st : MState) :
    List Expr → Except PyErr (List Expr × MState)
  | [] => .ok ([], st)
  | x :: xs =>
    match visit_expr cfg st x with
    | .error err => .error err
    | .ok (x', st1) =>
      match visit_expr_list cfg st1 xs with
      | .error err => .error err
      | .ok (xs', st2) => .ok (x' :: xs', st2)

/-- Modelled from the spec: the generic binding dispatcher of the
mutator engine (the C++ `VisitBinding` behind `_ffi_api`, not in the
sources).  The default for a `VarBinding` visits the bound value, visits
the variable definition, corrects the variable's struct-info via
`with_shape_and_type` when the rewritten value's struct-info differs
(registering the remap entry), and emits the resulting binding into the
block under construction (§4.3). -/
def visit_binding (cfg : MutCfg) (st : MState) (b : Binding) : Except PyErr MState :=
  match cfg.f_visit_binding with
  | some f => f b st
  | none =>
    match b with
    | .varBinding var value =>
      match cfg.f_visit_var_binding_ with
      | some f => f b st
      | none =>
        match visit_expr cfg st value with
        | .error err => .error err
        | .ok (new_value, st1) =>
          match visit_var_def cfg st1 var with
          | .error err => .error err
          | .ok (new_var, st2) =>
            let temp := with_shape_and_type new_var (exprShapeOf new_value) (exprTyOf new_value)
            if temp = new_var then
              .ok (emit_binding st2 (.varBinding new_var new_value))
            else
              .ok (emit_binding (set_var_remap st2 var.v.vid temp) (.varBinding temp new_value))
    | .matchShape var value pattern =>
      match cfg.f_visit_match_shape_ with
      | some f => f b st
      | none =>
        match visit_expr cfg st value with
        | .error err => .error err
        | .ok (new_value, st1) =>
          match var with
          | none => .ok (emit_binding st1 (.matchShape none new_value pattern))
          | some r =>
            match visit_var_def cfg st1 r with
            | .error err => .error err
            | .ok (r', st2) => .ok (emit_binding st2 (.matchShape (some r') new_value pattern))

/-- Default recursion of the mutator over the bindings of a block. -/
def visit_binding_list (cfg : MutCfg) (st : MState) :
    List Binding → Except PyErr MState
  | [] => .ok st
  | b :: bs =>
    match visit_binding cfg st b with
    | .error err => .error err
    | .ok st1 => visit_binding_list cfg st1 bs

/-- Modelled from the spec: the generic binding-block dispatcher of the
mutator engine (the C++ `VisitBindingBlock` behind `_ffi_api`, not in
the sources): open a fresh builder scope, replay every binding into it,
and close the scope to obtain the finished block (§4.3). -/
def visit_binding_block (cfg : MutCfg) (st : MState) (bl : BBlock) :
    Except PyErr (BBlock × MState) :=
  match cfg.f_visit_binding_block with
  | some f => f bl st
  | none =>
    match bl with
    | .bindingBlock bindings =>
      match cfg.f_visit_binding_block_ with
      | some f => f bl st
      | none =>
        match visit_binding_list cfg { st with emitted := [] } bindings with
        | .error err => .error err
        | .ok st1 => .ok (.bindingBlock st1.emitted, { st1 with emitted := st.emitted })
    | .dataflowBlock bindings =>
      match cfg.f_visit_dataflow_block_ with
      | some f => f bl st
      | none =>
        match visit_binding_list cfg { st with emitted := [] } bindings with
        | .error err => .error err
        | .ok st1 => .ok (.dataflowBlock st1.emitted, { st1 with emitted := st.emitted })

/-- Default recursion of the mutator over a list of binding blocks. -/
def visit_block_list (cfg : MutCfg) (st : MState) :
    List BBlock → Except PyErr (List BBlock × MState)
  | [] => .ok ([], st)
  | bl :: bls =>
    match visit_binding_block cfg st bl with
    | .error err => .error err
    | .ok (bl', st1) =>
      match visit_block_list cfg st1 bls with
      | .error err => .error err
      | .ok (bls', st2) => .ok (bl' :: bls', st2)
end

/-- Method `PyExprMutator.visit_with_new_scope(expr)`: visit the expression and
close the scope afterwards, so variable remaps registered inside the
scope do not remain visible outside it (modelled from the spec, §4.3). -/
def visit_with_new_scope (cfg : MutCfg) (st : MState) (e : Expr) :
    Except PyErr (Expr × MState) :=
  match visit_expr cfg st e with
  | .error err => .error err
  | .ok (e', st') => .ok (e', { st' with remap := st.remap })

/-- Method `PyExprMutator.visit_constant_`: the supplied override, else the
base-class body `raise NotImplementedError`. -/
def visit_constant_ (cfg : MutCfg) (op : Expr) : Except PyErr Expr :=
  match cfg.f_visit_constant_ with
  | some f => f op
  | none => .error .notImplementedError

/-- Method `PyExprMutator.visit_tuple_`: override, else `raise NotImplementedError`. -/
def visit_tuple_ (cfg : MutCfg) (op : Expr) : Except PyErr Expr :=
  match cfg.f_visit_tuple_ with
  | some f => f op
  | none => .error .notImplementedError

/-- Method `PyExprMutator.visit_var_`: override, else `raise NotImplementedError`. -/
def visit_var_ (cfg : MutCfg) (op : Expr) : Except PyErr Expr :=
  match cfg.f_visit_var_ with
  | some f => f op
  | none => .error .notImplementedError

/-- Method `PyExprMutator.visit_dataflow_var_`: override, else `raise NotImplementedError`. -/
def visit_dataflow_var_ (cfg : MutCfg) (op : Expr) : Except PyErr Expr :=
  match cfg.f_visit_dataflow_var_ with
  | some f => f op
  | none => .error .notImplementedError

/-- Method `PyExprMutator.visit_shape_expr_`: override, else `raise NotImplementedError`. -/
def visit_shape_expr_ (cfg : MutCfg) (op : Expr) : Except PyErr Expr :=
  match cfg.f_visit_shape_expr_ with
  | some f => f op
  | none => .error .notImplementedError

/-- Method `PyExprMutator.visit_runtime_dep_shape_`: override, else `raise NotImplementedError`. -/
def visit_runtime_dep_shape_ (cfg : MutCfg) (op : Expr) : Except PyErr Expr :=
  match cfg.f_visit_runtime_dep_shape_ with
  | some f => f op
  | none => .error .notImplementedError

/-- Method `PyExprMutator.visit_extern_func_`: override, else `raise NotImplementedError`. -/
def visit_extern_func_ (cfg : MutCfg) (op : Expr) : Except PyErr Expr :=
  match cfg.f_visit_extern_func_ with
  | some f => f op
  | none => .error .notImplementedError

/-- Method `PyExprMutator.visit_global_var_`: override, else `raise NotImplementedError`. -/
def visit_global_var_ (cfg : MutCfg) (op : Expr) : Except PyErr Expr :=
  match cfg.f_visit_global_var_ with
  | some f => f op
  | none => .error .notImplementedError

/-- Method `PyExprMutator.visit_function_`: override, else `raise NotImplementedError`. -/
def visit_function_ (cfg : MutCfg) (op : Expr) : Except PyErr Expr :=
  match cfg.f_visit_function_ with
  | some f => f op
  | none => .error .notImplementedError

/-- Method `PyExprMutator.visit_call_`: override, else `raise NotImplementedError`. -/
def visit_call_ (cfg : MutCfg) (op : Expr) : Except PyErr Expr :=
  match cfg.f_visit_call_ with
  | some f => f op
  | none => .error .notImplementedError

/-- Method `PyExprMutator.visit_seq_expr_`: override, else `raise NotImplementedError`. -/
def visit_seq_expr_ (cfg : MutCfg) (op : Expr) : Except PyErr Expr :=
  match cfg.f_visit_seq_expr_ with
  | some f => f op
  | none => .error .notImplementedError

/-- Method `PyExprMutator.visit_if_`: override, else `raise NotImplementedError`. -/
def visit_if_ (cfg : MutCfg) (op : Expr) : Except PyErr Expr :=
  match cfg.f_visit_if_ with
  | some f => f op
  | none => .error .notImplementedError

/-- Method `PyExprMutator.visit_op_`: override, else `raise NotImplementedError`. -/
def visit_op_ (cfg : MutCfg) (op : Expr) : Except PyErr Expr :=
  match cfg.f_visit_op_ with
  | some f => f op
  | none => .error .notImplementedError

/-- Method `PyExprMutator.visit_tuple_getitem_`: override, else `raise NotImplementedError`. -/
def visit_tuple_getitem_ (cfg : MutCfg) (op : Expr) : Except PyErr Expr :=
  match cfg.f_visit_tuple_getitem_ with
  | some f => f op
  | none => .error .notImplementedError

end PyExprMutator

/-- The closed set of expression node kinds that have both a direct
override slot and a post-order rewrite hook slot in
`_PyExprMutator.__init__`. -/
inductive NodeKind where
  | constant | tuple | var | dataflowVar | shapeExpr | runtimeDepShape
  | externFunc | globalVar | function | call | seqExpr | ifK | op | tupleGetItem
deriving DecidableEq, Repr

/-- The direct-override slot of a mutator configuration for a given
expression node kind. -/
def MutCfg.directOverride (cfg : MutCfg) : NodeKind → Option (Expr → Except PyErr Expr)
  | .constant => cfg.f_visit_constant_
  | .tuple => cfg.f_visit_tuple_
  | .var => cfg.f_visit_var_
  | .dataflowVar => cfg.f_visit_dataflow_var_
  | .shapeExpr => cfg.f_visit_shape_expr_
  | .runtimeDepShape => cfg.f_visit_runtime_dep_shape_
  | .externFunc => cfg.f_visit_extern_func_
  | .globalVar => cfg.f_visit_global_var_
  | .function => cfg.f_visit_function_
  | .call => cfg.f_visit_call_
  | .seqExpr => cfg.f_visit_seq_expr_
  | .ifK => cfg.f_visit_if_
  | .op => cfg.f_visit_op_
  | .tupleGetItem => cfg.f_visit_tuple_getitem_

/-- The post-order rewrite hook slot of a mutator configuration for a
given expression node kind. -/
def MutCfg.postOrderHook (cfg : MutCfg) : NodeKind → Option (Expr → Except PyErr Expr)
  | .constant => cfg.f_rewrite_constant_post_order
  | .tuple => cfg.f_rewrite_tuple_post_order
  | .var => cfg.f_rewrite_var_post_order
  | .dataflowVar => cfg.f_rewrite_dataflow_var_post_order
  | .shapeExpr => cfg.f_rewrite_shape_expr_post_order
  | .runtimeDepShape => cfg.f_rewrite_runtime_dep_shape_post_order
  | .externFunc => cfg.f_rewrite_extern_func_post_order
  | .globalVar => cfg.f_rewrite_global_var_post_order
  | .function => cfg.f_rewrite_function_post_order
  | .call => cfg.f_rewrite_call_post_order
  | .seqExpr => cfg.f_rewrite_seq_expr_post_order
  | .ifK => cfg.f_rewrite_if_post_order
  | .op => cfg.f_rewrite_op_post_order
  | .tupleGetItem => cfg.f_rewrite_tuple_getitem_post_order

/-- Every expression node kind, in handler-slot order. -/
def allNodeKinds : List NodeKind :=
  [.constant, .tuple, .var, .dataflowVar, .shapeExpr, .runtimeDepShape,
   .externFunc, .globalVar, .function, .call, .seqExpr, .ifK, .op, .tupleGetItem]

/-- A mutator configuration supplying both the direct override and the
post-order hook for some node kind. -/
def MutCfg.hasConflict (cfg : MutCfg) : Bool :=
  allNodeKinds.any fun k => (cfg.directOverride k).isSome && (cfg.postOrderHook k).isSome

/-- Modelled from the spec: construction of a mutator instance from a
handler configuration (the `mutator` decorator plus the C++
`MakePyExprMutator` behind `_ffi_api`, which is not in the sources).
Per the configuration rule stated with the decorator ("Cannot override
visit function and post-order rewrite at the same time") and §4.4,
construction rejects a configuration supplying both a direct override
and a post-order hook for the same kind. -/
def mkPyExprMutator (cfg : MutCfg) : Except PyErr MutCfg :=
  if cfg.hasConflict then
    .error (.typeError "Cannot override visit function and post-order rewrite at the same time")
  else
    .ok cfg

mutual
/-- Modelled from the spec: well-formedness of an expression tree (§3):
every binding's left-hand variable carries the struct-info of its bound
value (struct-info, once assigned by inference, is consistent across a
binding). -/
def wfExpr : Expr → Bool
  | .constant _ => true
  | .tuple fields => wfExprList fields
  | .evar _ => true
  | .dataflowVar _ => true
  | .shapeExpr _ => true
  | .runtimeDepShape => true
  | .externFunc _ => true
  | .globalVar _ => true
  | .functionE _ body => wfExpr body
  | .call op args => wfExpr op && wfExprList args
  | .seqExpr blocks body => wfBlockList blocks && wfExpr body
  | .ifE cond thenBranch elseBranch => wfExpr cond && wfExpr thenBranch && wfExpr elseBranch
  | .opNode _ => true
  | .tupleGetItem tup _ => wfExpr tup

/-- Well-formedness of a list of expressions. -/
def wfExprList : List Expr → Bool
  | [] => true
  | x :: xs => wfExpr x && wfExprList xs

/-- Well-formedness of a binding: the bound value is well-formed and,
for a `VarBinding`, the variable's annotations agree with the value's
struct-info. -/
def wfBinding : Binding → Bool
  | .varBinding var value =>
    wfExpr value && (var.v.shape == PyExprMutator.exprShapeOf value)
      && (var.v.ty == PyExprMutator.exprTyOf value)
  | .matchShape _ value _ => wfExpr value

/-- Well-formedness of a list of bindings. -/
def wfBindingList : List Binding → Bool
  | [] => true
  | b :: bs => wfBinding b && wfBindingList bs

/-- Well-formedness of a binding block. -/
def wfBlock : BBlock → Bool
  | .bindingBlock bindings => wfBindingList bindings
  | .dataflowBlock bindings => wfBindingList bindings

/-- Well-formedness of a list of binding blocks. -/
def wfBlockList : List BBlock → Bool
  | [] => true
  | bl :: bls => wfBlock bl && wfBlockList bls
end

/-! ### Sample concrete objects used to instantiate the theorems -/

/-- A sample variable `x` with id 1 and no annotations. -/
def sampleVarX : VarData := ⟨1, "x", none, none⟩

/-- A sample variable `y` with id 3 and no annotations. -/
def sampleVarY : VarData := ⟨3, "y", none, none⟩

/-- The dataflow-var wrapper of `sampleVarY`. -/
def sampleRVarY : RVar := ⟨true, sampleVarY⟩

/-- A sample replacement variable `z` with id 2. -/
def sampleNewVar : RVar := ⟨false, ⟨2, "z", none, none⟩⟩

/-- A sample annotated variable `w` with shape `[2]` and type `1`. -/
def sampleAnnVar : RVar := ⟨false, ⟨5, "w", some [2], some 1⟩⟩

/-- The empty mutator state: no remaps, no recorded bindings, nothing
emitted. -/
def mState0 : MState := ⟨[], [], []⟩

/-- A sample well-formed program: one dataflow block binding
`y = add(x, x)` and returning `y`. -/
def sampleExpr : Expr :=
  .seqExpr
    [.dataflowBlock [.varBinding sampleRVarY (.call (.opNode "add") [.evar sampleVarX, .evar sampleVarX])]]
    (.evar sampleVarY)

/-- A mutator configuration supplying both the direct override and the
post-order hook for `Call`. -/
def cfgConflict : MutCfg where
  f_visit_call_ := some fun e => .ok e
  f_rewrite_call_post_order := some fun e => .ok e

/-- A sample tensor proxy with shape `(2, 3)` and dtype `float32`. -/
def sampleProxy : TensorProxy := ⟨some [.prim 2, .prim 3], some "float32", 2⟩

/-- The struct info `sampleProxy` converts to. -/
def sampleSInfo : StructInfo := .tensorSInfo (some [2, 3]) (some "float32") 2

/-! ### Helper lemmas -/

theorem string_of_length_zero (s : String) (h : s.length = 0) : s = "" := by
  cases s with
  | mk data =>
    simp only [String.length] at h
    rw [List.length_eq_zero] at h
    simp [h]

/-! ### Helper lemmas: the fully-default visitor never raises -/

theorem visit_var_def_default_ok (r : RVar) :
    PyExprVisitor.visit_var_def defaultVisCfg r = .ok () := by
  cases hdf : r.df <;> simp [PyExprVisitor.visit_var_def, defaultVisCfg, hdf]

theorem visit_var_def_list_default_ok (l : List RVar) :
    PyExprVisitor.visit_var_def_list defaultVisCfg l = .ok () := by
  induction l with
  | nil => rfl
  | cons r rs ih =>
    simp [PyExprVisitor.visit_var_def_list, visit_var_def_default_ok, ih]

mutual
theorem vis_default_expr_ok (e : Expr) :
    PyExprVisitor.visit_expr defaultVisCfg e = .ok () := by
  cases e with
  | constant v => rfl
  | tuple fields =>
    have h := vis_default_expr_list_ok fields
    simp only [defaultVisCfg] at h ⊢
    simp [PyExprVisitor.visit_expr, h]
  | evar v => rfl
  | dataflowVar v => rfl
  | shapeExpr values => rfl
  | runtimeDepShape => rfl
  | externFunc s => rfl
  | globalVar s => rfl
  | functionE params body =>
    have h1 := visit_var_def_list_default_ok params
    have h2 := vis_default_expr_ok body
    simp [PyExprVisitor.visit_expr, defaultVisCfg] at h1 h2 ⊢
    simp [h1, h2]
  | call op args =>
    have h1 := vis_default_expr_ok op
    have h2 := vis_default_expr_list_ok args
    simp [PyExprVisitor.visit_expr, defaultVisCfg] at h1 h2 ⊢
    simp [h1, h2]
  | seqExpr blocks body =>
    have h1 := vis_default_block_list_ok blocks
    have h2 := vis_default_expr_ok body
    simp [PyExprVisitor.visit_expr, defaultVisCfg] at h1 h2 ⊢
    simp [h1, h2]
  | ifE cond thenBranch elseBranch =>
    have h1 := vis_default_expr_ok cond
    have h2 := vis_default_expr_ok thenBranch
    have h3 := vis_default_expr_ok elseBranch
    simp [PyExprVisitor.visit_expr, defaultVisCfg] at h1 h2 h3 ⊢
    simp [h1, h2, h3]
  | opNode s => rfl
  | tupleGetItem tup index =>
    have h := vis_default_expr_ok tup
    simp [PyExprVisitor.visit_expr, defaultVisCfg] at h ⊢
    simp [h]

theorem vis_default_expr_list_ok (l : List Expr) :
    PyExprVisitor.visit_expr_list defaultVisCfg l = .ok () := by
  cases l with
  | nil => rfl
  | cons x xs =>
    have h1 := vis_default_expr_ok x
    have h2 := vis_default_expr_list_ok xs
    simp [PyExprVisitor.visit_expr_list, h1, h2]

theorem vis_default_binding_ok (b : Binding) :
    PyExprVisitor.visit_binding defaultVisCfg b = .ok () := by
  cases b with
  | varBinding var value =>
    have h := vis_default_expr_ok value
    have hv := visit_var_def_default_ok var
    simp only [defaultVisCfg] at h hv ⊢
    simp [PyExprVisitor.visit_binding, h, hv]
  | matchShape var value pattern =>
    have h := vis_default_expr_ok value
    cases var with
    | none =>
      simp only [defaultVisCfg] at h ⊢
      simp [PyExprVisitor.visit_binding, h]
    | some r =>
      have hv := visit_var_def_default_ok r
      simp only [defaultVisCfg] at h hv ⊢
      simp [PyExprVisitor.visit_binding, h, hv]

theorem vis_default_binding_list_ok (l : List Binding) :
    PyExprVisitor.visit_binding_list defaultVisCfg l = .ok () := by
  cases l with
  | nil => rfl
  | cons b bs =>
    have h1 := vis_default_binding_ok b
    have h2 := vis_default_binding_list_ok bs
    simp [PyExprVisitor.visit_binding_list, h1, h2]

theorem vis_default_block_ok (bl : BBlock) :
    PyExprVisitor.visit_binding_block defaultVisCfg bl = .ok () := by
  cases bl with
  | bindingBlock bindings =>
    have h := vis_default_binding_list_ok bindings
    simp only [defaultVisCfg] at h ⊢
    simp [PyExprVisitor.visit_binding_block, h]
  | dataflowBlock bindings =>
    have h := vis_default_binding_list_ok bindings
    simp only [defaultVisCfg] at h ⊢
    simp [PyExprVisitor.visit_binding_block, h]

theorem vis_default_block_list_ok (l : List BBlock) :
    PyExprVisitor.visit_block_list defaultVisCfg l = .ok () := by
  cases l with
  | nil => rfl
  | cons bl bls =>
    have h1 := vis_default_block_ok bl
    have h2 := vis_default_block_list_ok bls
    simp [PyExprVisitor.visit_block_list, h1, h2]
end

/-! ### Helper lemmas: the fully-default mutator is the identity on
well-formed trees -/

theorem mut_visit_var_def_default (st : MState) (r : RVar) :
    PyExprMutator.visit_var_def defaultMutCfg st r = .ok (r, st) := by
  cases hdf : r.df <;> simp [PyExprMutator.visit_var_def, defaultMutCfg, hdf]

theorem mut_visit_var_def_list_default (st : MState) (l : List RVar) :
    PyExprMutator.visit_var_def_list defaultMutCfg st l = .ok (l, st) := by
  induction l generalizing st with
  | nil => rfl
  | cons r rs ih =>
    have h := mut_visit_var_def_default st r
    simp only [defaultMutCfg] at h ⊢
    simp [PyExprMutator.visit_var_def_list, h]
    have h2 := ih st
    simp only [defaultMutCfg] at h2
    simp [h2]

mutual
theorem mut_id_expr (e : Expr) : ∀ st : MState, st.remap = [] → wfExpr e = true →
    ∃ tbl, PyExprMutator.visit_expr defaultMutCfg st e = .ok (e, ⟨[], tbl, st.emitted⟩) := by
  intro st h hw
  obtain ⟨re, tb, em⟩ := st
  simp only at h
  subst h
  cases e with
  | constant v => exact ⟨tb, rfl⟩
  | tuple fields =>
    simp only [wfExpr] at hw
    obtain ⟨tbl, hl⟩ := mut_id_expr_list fields ⟨[], tb, em⟩ rfl hw
    simp only [defaultMutCfg] at hl ⊢
    refine ⟨tbl, ?_⟩
    simp [PyExprMutator.visit_expr, hl, PyExprMutator.post_order_step]
  | evar v => exact ⟨tb, rfl⟩
  | dataflowVar v => exact ⟨tb, rfl⟩
  | shapeExpr values => exact ⟨tb, rfl⟩
  | runtimeDepShape => exact ⟨tb, rfl⟩
  | externFunc s => exact ⟨tb, rfl⟩
  | globalVar s => exact ⟨tb, rfl⟩
  | functionE params body =>
    simp only [wfExpr] at hw
    have hp := mut_visit_var_def_list_default ⟨[], tb, em⟩ params
    obtain ⟨tbl, hb⟩ := mut_id_expr body ⟨[], tb, em⟩ rfl hw
    simp only [defaultMutCfg] at hp hb ⊢
    refine ⟨tbl, ?_⟩
    simp [PyExprMutator.visit_expr, hp, hb, PyExprMutator.post_order_step]
  | call op args =>
    simp only [wfExpr, Bool.and_eq_true] at hw
    obtain ⟨tbl1, h1⟩ := mut_id_expr op ⟨[], tb, em⟩ rfl hw.1
    obtain ⟨tbl2, h2⟩ := mut_id_expr_list args ⟨[], tbl1, em⟩ rfl hw.2
    simp only [defaultMutCfg] at h1 h2 ⊢
    refine ⟨tbl2, ?_⟩
    simp [PyExprMutator.visit_expr, h1, h2, PyExprMutator.post_order_step]
  | seqExpr blocks body =>
    simp only [wfExpr, Bool.and_eq_true] at hw
    obtain ⟨tbl1, h1⟩ := mut_id_block_list blocks ⟨[], tb, em⟩ rfl hw.1
    obtain ⟨tbl2, h2⟩ := mut_id_expr body ⟨[], tbl1, em⟩ rfl hw.2
    simp only [defaultMutCfg] at h1 h2 ⊢
    refine ⟨tbl2, ?_⟩
    simp [PyExprMutator.visit_expr, h1, h2, PyExprMutator.post_order_step]
  | ifE cond thenBranch elseBranch =>
    simp only [wfExpr, Bool.and_eq_true] at hw
    obtain ⟨tbl1, h1⟩ := mut_id_expr cond ⟨[], tb, em⟩ rfl hw.1.1
    obtain ⟨tbl2, h2⟩ := mut_id_expr thenBranch ⟨[], tbl1, em⟩ rfl hw.1.2
    obtain ⟨tbl3, h3⟩ := mut_id_expr elseBranch ⟨[], tbl2, em⟩ rfl hw.2
    simp only [defaultMutCfg] at h1 h2 h3 ⊢
    refine ⟨tbl3, ?_⟩
    simp [PyExprMutator.visit_expr, h1, h2, h3, PyExprMutator.post_order_step]
  | opNode s => exact ⟨tb, rfl⟩
  | tupleGetItem tup index =>
    simp only [wfExpr] at hw
    obtain ⟨tbl, h1⟩ := mut_id_expr tup ⟨[], tb, em⟩ rfl hw
    simp only [defaultMutCfg] at h1 ⊢
    refine ⟨tbl, ?_⟩
    simp [PyExprMutator.visit_expr, h1, PyExprMutator.post_order_step]

theorem mut_id_expr_list (l : List Expr) : ∀ st : MState, st.remap = [] →
    wfExprList l = true →
    ∃ tbl, PyExprMutator.visit_expr_list defaultMutCfg st l = .ok (l, ⟨[], tbl, st.emitted⟩) := by
  intro st h hw
  obtain ⟨re, tb, em⟩ := st
  simp only at h
  subst h
  cases l with
  | nil => exact ⟨tb, rfl⟩
  | cons x xs =>
    simp only [wfExprList, Bool.and_eq_true] at hw
    obtain ⟨tbl1, h1⟩ := mut_id_expr x ⟨[], tb, em⟩ rfl hw.1
    obtain ⟨tbl2, h2⟩ := mut_id_expr_list xs ⟨[], tbl1, em⟩ rfl hw.2
    simp only [defaultMutCfg] at h1 h2 ⊢
    refine ⟨tbl2, ?_⟩
    simp [PyExprMutator.visit_expr_list, h1, h2]

theorem mut_id_binding (b : Binding) : ∀ st : MState, st.remap = [] →
    wfBinding b = true →
    ∃ tbl, PyExprMutator.visit_binding defaultMutCfg st b
      = .ok ⟨[], tbl, st.emitted ++ [b]⟩ := by
  intro st h hw
  obtain ⟨re, tb, em⟩ := st
  simp only at h
  subst h
  cases b with
  | varBinding var value =>
    simp only [wfBinding, Bool.and_eq_true, beq_iff_eq] at hw
    obtain ⟨tbl1, h1⟩ := mut_id_expr value ⟨[], tb, em⟩ rfl hw.1.1
    have h2 := mut_visit_var_def_default ⟨[], tbl1, em⟩ var
    have htmp : PyExprMutator.with_shape_and_type var
        (PyExprMutator.exprShapeOf value) (PyExprMutator.exprTyOf value) = var := by
      simp [PyExprMutator.with_shape_and_type, hw.1.2, hw.2]
    simp only [defaultMutCfg] at h1 h2 ⊢
    refine ⟨(var.v.vid, value) :: tbl1, ?_⟩
    simp [PyExprMutator.visit_binding, h1, h2, htmp, PyExprMutator.emit_binding]
  | matchShape var value pattern =>
    simp only [wfBinding] at hw
    obtain ⟨tbl1, h1⟩ := mut_id_expr value ⟨[], tb, em⟩ rfl hw
    cases var with
    | none =>
      simp only [defaultMutCfg] at h1 ⊢
      refine ⟨tbl1, ?_⟩
      simp [PyExprMutator.visit_binding, h1, PyExprMutator.emit_binding]
    | some r =>
      have h2 := mut_visit_var_def_default ⟨[], tbl1, em⟩ r
      simp only [defaultMutCfg] at h1 h2 ⊢
      refine ⟨(r.v.vid, value) :: tbl1, ?_⟩
      simp [PyExprMutator.visit_binding, h1, h2, PyExprMutator.emit_binding]

theorem mut_id_binding_list (l : List Binding) : ∀ st : MState, st.remap = [] →
    wfBindingList l = true →
    ∃ tbl, PyExprMutator.visit_binding_list defaultMutCfg st l
      = .ok ⟨[], tbl, st.emitted ++ l⟩ := by
  intro st h hw
  obtain ⟨re, tb, em⟩ := st
  simp only at h
  subst h
  cases l with
  | nil => exact ⟨tb, by simp [PyExprMutator.visit_binding_list]⟩
  | cons b bs =>
    simp only [wfBindingList, Bool.and_eq_true] at hw
    obtain ⟨tbl1, h1⟩ := mut_id_binding b ⟨[], tb, em⟩ rfl hw.1
    obtain ⟨tbl2, h2⟩ := mut_id_binding_list bs ⟨[], tbl1, em ++ [b]⟩ rfl hw.2
    simp only [defaultMutCfg] at h1 h2 ⊢
    refine ⟨tbl2, ?_⟩
    simp only [PyExprMutator.visit_binding_list, h1, h2]
    simp

theorem mut_id_block (bl : BBlock) : ∀ st : MState, st.remap = [] →
    wfBlock bl = true →
    ∃ tbl, PyExprMutator.visit_binding_block defaultMutCfg st bl
      = .ok (bl, ⟨[], tbl, st.emitted⟩) := by
  intro st h hw
  obtain ⟨re, tb, em⟩ := st
  simp only at h
  subst h
  cases bl with
  | bindingBlock bindings =>
    simp only [wfBlock] at hw
    obtain ⟨tbl1, h1⟩ := mut_id_binding_list bindings ⟨[], tb, []⟩ rfl hw
    simp only [defaultMutCfg] at h1 ⊢
    refine ⟨tbl1, ?_⟩
    simp only [List.nil_append] at h1
    simp [PyExprMutator.visit_binding_block, h1]
  | dataflowBlock bindings =>
    simp only [wfBlock] at hw
    obtain ⟨tbl1, h1⟩ := mut_id_binding_list bindings ⟨[], tb, []⟩ rfl hw
    simp only [defaultMutCfg] at h1 ⊢
    refine ⟨tbl1, ?_⟩
    simp only [List.nil_append] at h1
    simp [PyExprMutator.visit_binding_block, h1]

theorem mut_id_block_list (l : List BBlock) : ∀ st : MState, st.remap = [] →
    wfBlockList l = true →
    ∃ tbl, PyExprMutator.visit_block_list defaultMutCfg st l
      = .ok (l, ⟨[], tbl, st.emitted⟩) := by
  intro st h hw
  obtain ⟨re, tb, em⟩ := st
  simp only at h
  subst h
  cases l with
  | nil => exact ⟨tb, rfl⟩
  | cons bl bls =>
    simp only [wfBlockList, Bool.and_eq_true] at hw
    obtain ⟨tbl1, h1⟩ := mut_id_block bl ⟨[], tb, em⟩ rfl hw.1
    obtain ⟨tbl2, h2⟩ := mut_id_block_list bls ⟨[], tbl1, em⟩ rfl hw.2
    simp only [defaultMutCfg] at h1 h2 ⊢
    refine ⟨tbl2, ?_⟩
    simp [PyExprMutator.visit_block_list, h1, h2]
end

/-! ### Helper lemmas: unsupplied post-order hooks behave as identity
hooks -/

theorem mut_visit_var_def_idhooks (st : MState) (r : RVar) :
    PyExprMutator.visit_var_def idHooksMutCfg st r = .ok (r, st) := by
  cases hdf : r.df <;> simp [PyExprMutator.visit_var_def, idHooksMutCfg, hdf]

theorem mut_visit_var_def_list_idhooks (st : MState) (l : List RVar) :
    PyExprMutator.visit_var_def_list idHooksMutCfg st l = .ok (l, st) := by
  induction l generalizing st with
  | nil => rfl
  | cons r rs ih =>
    have h := mut_visit_var_def_idhooks st r
    simp only [idHooksMutCfg] at h ⊢
    simp [PyExprMutator.visit_var_def_list, h]
    have h2 := ih st
    simp only [idHooksMutCfg] at h2
    simp [h2]

mutual
theorem hooks_eq_expr (e : Expr) : ∀ st : MState,
    PyExprMutator.visit_expr defaultMutCfg st e
      = PyExprMutator.visit_expr idHooksMutCfg st e := by
  intro st
  cases e with
  | constant v => rfl
  | evar v => rfl
  | dataflowVar v => rfl
  | shapeExpr values => rfl
  | runtimeDepShape => rfl
  | externFunc s => rfl
  | globalVar s => rfl
  | opNode s => rfl
  | tuple fields =>
    have ih := hooks_eq_expr_list fields st
    simp only [defaultMutCfg, idHooksMutCfg] at ih ⊢
    simp only [PyExprMutator.visit_expr, ih]
    split
    · rfl
    · simp [PyExprMutator.post_order_step]
  | functionE params body =>
    have hp := mut_visit_var_def_list_default st params
    have hpi := mut_visit_var_def_list_idhooks st params
    have ih := hooks_eq_expr body st
    simp only [defaultMutCfg, idHooksMutCfg] at hp hpi ih ⊢
    simp only [PyExprMutator.visit_expr, hp, hpi, ih]
    split
    · rfl
    · simp [PyExprMutator.post_order_step]
  | call op args =>
    have ih1 := hooks_eq_expr op st
    simp only [defaultMutCfg, idHooksMutCfg] at ih1 ⊢
    simp only [PyExprMutator.visit_expr, ih1]
    split
    · rfl
    · rename_i op' st1 _
      have ih2 := hooks_eq_expr_list args st1
      simp only [defaultMutCfg, idHooksMutCfg] at ih2
      simp only [ih2]
      split
      · rfl
      · simp [PyExprMutator.post_order_step]
  | seqExpr blocks body =>
    have ih1 := hooks_eq_block_list blocks st
    simp only [defaultMutCfg, idHooksMutCfg] at ih1 ⊢
    simp only [PyExprMutator.visit_expr, ih1]
    split
    · rfl
    · rename_i blocks' st1 _
      have ih2 := hooks_eq_expr body st1
      simp only [defaultMutCfg, idHooksMutCfg] at ih2
      simp only [ih2]
      split
      · rfl
      · simp [PyExprMutator.post_order_step]
  | ifE cond thenBranch elseBranch =>
    have ih1 := hooks_eq_expr cond st
    simp only [defaultMutCfg, idHooksMutCfg] at ih1 ⊢
    simp only [PyExprMutator.visit_expr, ih1]
    split
    · rfl
    · rename_i cond' st1 _
      have ih2 := hooks_eq_expr thenBranch st1
      simp only [defaultMutCfg, idHooksMutCfg] at ih2
      simp only [ih2]
      split
      · rfl
      · rename_i then' st2 _
        have ih3 := hooks_eq_expr elseBranch { st2 with remap := st1.remap }
        simp only [defaultMutCfg, idHooksMutCfg] at ih3
        simp only [ih3]
        split
        · rfl
        · simp [PyExprMutator.post_order_step]
  | tupleGetItem tup index =>
    have ih := hooks_eq_expr tup st
    simp only [defaultMutCfg, idHooksMutCfg] at ih ⊢
    simp only [PyExprMutator.visit_expr, ih]
    split
    · rfl
    · simp [PyExprMutator.post_order_step]

theorem hooks_eq_expr_list (l : List Expr) : ∀ st : MState,
    PyExprMutator.visit_expr_list defaultMutCfg st l
      = PyExprMutator.visit_expr_list idHooksMutCfg st l := by
  intro st
  cases l with
  | nil => rfl
  | cons x xs =>
    have ih1 := hooks_eq_expr x st
    simp only [defaultMutCfg, idHooksMutCfg] at ih1 ⊢
    simp only [PyExprMutator.visit_expr_list, ih1]
    split
    · rfl
    · rename_i x' st1 _
      have ih2 := hooks_eq_expr_list xs st1
      simp only [defaultMutCfg, idHooksMutCfg] at ih2
      simp only [ih2]

theorem hooks_eq_binding (b : Binding) : ∀ st : MState,
    PyExprMutator.visit_binding defaultMutCfg st b
      = PyExprMutator.visit_binding idHooksMutCfg st b := by
  intro st
  cases b with
  | varBinding var value =>
    have ih := hooks_eq_expr value st
    simp only [defaultMutCfg, idHooksMutCfg] at ih ⊢
    simp only [PyExprMutator.visit_binding, ih]
    split
    · rfl
    · rename_i value' st1 _
      have h1 := mut_visit_var_def_default st1 var
      have h2 := mut_visit_var_def_idhooks st1 var
      simp only [defaultMutCfg, idHooksMutCfg] at h1 h2
      simp only [h1, h2]
  | matchShape var value pattern =>
    have ih := hooks_eq_expr value st
    simp only [defaultMutCfg, idHooksMutCfg] at ih ⊢
    simp only [PyExprMutator.visit_binding, ih]
    split
    · rfl
    · rename_i value' st1 _
      cases var with
      | none => rfl
      | some r =>
        have h1 := mut_visit_var_def_default st1 r
        have h2 := mut_visit_var_def_idhooks st1 r
        simp only [defaultMutCfg, idHooksMutCfg] at h1 h2
        simp only [h1, h2]

theorem hooks_eq_binding_list (l : List Binding) : ∀ st : MState,
    PyExprMutator.visit_binding_list defaultMutCfg st l
      = PyExprMutator.visit_binding_list idHooksMutCfg st l := by
  intro st
  cases l with
  | nil => rfl
  | cons b bs =>
    have ih1 := hooks_eq_binding b st
    simp only [defaultMutCfg, idHooksMutCfg] at ih1 ⊢
    simp only [PyExprMutator.visit_binding_list, ih1]
    split
    · rfl
    · rename_i st1 _
      have ih2 := hooks_eq_binding_list bs st1
      simp only [defaultMutCfg, idHooksMutCfg] at ih2
      simp only [ih2]

theorem hooks_eq_block (bl : BBlock) : ∀ st : MState,
    PyExprMutator.visit_binding_block defaultMutCfg st bl
      = PyExprMutator.visit_binding_block idHooksMutCfg st bl := by
  intro st
  cases bl with
  | bindingBlock bindings =>
    have ih := hooks_eq_binding_list bindings { st with emitted := [] }
    simp only [defaultMutCfg, idHooksMutCfg] at ih ⊢
    simp only [PyExprMutator.visit_binding_block, ih]
  | dataflowBlock bindings =>
    have ih := hooks_eq_binding_list bindings { st with emitted := [] }
    simp only [defaultMutCfg, idHooksMutCfg] at ih ⊢
    simp only [PyExprMutator.visit_binding_block, ih]

theorem hooks_eq_block_list (l : List BBlock) : ∀ st : MState,
    PyExprMutator.visit_block_list defaultMutCfg st l
      = PyExprMutator.visit_block_list idHooksMutCfg st l := by
  intro st
  cases l with
  | nil => rfl
  | cons bl bls =>
    have ih1 := hooks_eq_block bl st
    simp only [defaultMutCfg, idHooksMutCfg] at ih1 ⊢
    simp only [PyExprMutator.visit_block_list, ih1]
    split
    · rfl
    · rename_i bl' st1 _
      have ih2 := hooks_eq_block_list bls st1
      simp only [defaultMutCfg, idHooksMutCfg] at ih2
      simp only [ih2]
end

theorem wst_vid (var : RVar) (s : Option (List Nat)) (t : Option Nat) :
    (PyExprMutator.with_shape_and_type var s t).v.vid = var.v.vid := by
  unfold PyExprMutator.with_shape_and_type
  split <;> rfl

/-! ### Claim theorems -/

/-- C10: `match_cast(value, struct_info)` raises `ValueError` when
`value` is `None` and when `struct_info` is `None`; for every non-`None`
pair it returns a `MatchCastPair` holding exactly the given value and
struct info unchanged. -/
theorem claim10_match_cast :
    (∀ s : Option StructInfo,
      match_cast none s = .error (.valueError "value of match_cast cannot be None"))
    ∧ (∀ v : EntryExpr,
      match_cast (some v) none = .error (.valueError "struct_info of match_cast cannot be None"))
    ∧ (∀ (v : EntryExpr) (s : StructInfo), match_cast (some v) (some s) = .ok ⟨v, s⟩) :=
  ⟨fun _ => rfl, fun _ => rfl, fun _ _ => rfl⟩

/-- C9 counterexample: at `shape = ""` (an empty string) with
`dtype = None`, the scalar-tensor normalization `len(shape) == 0` fires
before the string-reinterpretation check, so `Tensor` returns a proxy
with shape `[]` and dtype `None` — not, as the claim states, a proxy
with shape `None` and the string reinterpreted as the dtype. -/
theorem claim9_counterexample :
    Tensor (some (.strArg "")) none (-1) = .ok ⟨some [], none, -1⟩
    ∧ Tensor (some (.strArg "")) none (-1) ≠ .ok ⟨none, some "", -1⟩ := by
  refine ⟨rfl, ?_⟩
  intro h
  rw [show Tensor (some (.strArg "")) none (-1) = .ok ⟨some [], none, -1⟩ from rfl] at h
  simp at h

/-- C9 (amended): `Tensor(shape, dtype, ndim)`: a *non-empty* string
shape with `dtype = None` is reinterpreted as the dtype, yielding a
proxy with shape `None`; an empty-string shape is normalized to the
empty list by the scalar-tensor case (its dtype is kept); a non-empty
string shape with a supplied dtype raises `ValueError` (the only
remaining non-`None`, non-list, non-tuple case); otherwise the returned
`TensorProxy` holds exactly the given shape, dtype and ndim. -/
theorem claim9_tensor_amended :
    (∀ (s : String) (ndim : Int), s ≠ "" →
      Tensor (some (.strArg s)) none ndim = .ok ⟨none, some s, ndim⟩)
    ∧ (∀ (dtype : Option String) (ndim : Int),
      Tensor (some (.strArg "")) dtype ndim = .ok ⟨some [], dtype, ndim⟩)
    ∧ (∀ (s : String) (d : String) (ndim : Int), s ≠ "" →
      Tensor (some (.strArg s)) (some d) ndim
        = .error (.valueError ("shape must be a list or tuple, but got: " ++ s)))
    ∧ (∀ (dims : List Dim) (dtype : Option String) (ndim : Int),
      Tensor (some (.listArg dims)) dtype ndim = .ok ⟨some dims, dtype, ndim⟩)
    ∧ (∀ (dims : List Dim) (dtype : Option String) (ndim : Int),
      Tensor (some (.tupleArg dims)) dtype ndim = .ok ⟨some dims, dtype, ndim⟩)
    ∧ (∀ (dtype : Option String) (ndim : Int),
      Tensor none dtype ndim = .ok ⟨none, dtype, ndim⟩) := by
  refine ⟨?_, ?_, ?_, ?_, ?_, ?_⟩
  · intro s ndim hs
    have hl : ¬ s.length = 0 := fun h => hs (string_of_length_zero s h)
    simp [Tensor, PyShapeArg.pyLen, hl]
  · intro dtype ndim
    cases dtype <;> rfl
  · intro s d ndim hs
    have hl : ¬ s.length = 0 := fun h => hs (string_of_length_zero s h)
    simp [Tensor, PyShapeArg.pyLen, hl]
  · intro dims dtype ndim
    cases dims with
    | nil => cases dtype <;> rfl
    | cons d ds => cases dtype <;> simp [Tensor, PyShapeArg.pyLen]
  · intro dims dtype ndim
    cases dims with
    | nil => cases dtype <;> rfl
    | cons d ds => cases dtype <;> simp [Tensor, PyShapeArg.pyLen]
  · intro dtype ndim
    cases dtype <;> rfl

/-- C9 witness: `Tensor("float32")` yields the proxy with shape `None`
and dtype `"float32"`. -/
theorem claim9_tensor_amended_witness :
    Tensor (some (.strArg "float32")) none (-1) = .ok ⟨none, some "float32", -1⟩ :=
  claim9_tensor_amended.1 "float32" (-1) (by decide)

/-- C7: `with_shape_and_type(var, shape, t)` returns the original
variable unchanged when its shape and type already match the specified
ones, and otherwise returns a newly synthesized variable that carries
exactly the specified shape and type (differing from the original, with
kind, id and name preserved); the original variable is never modified
(the operation is pure). -/
theorem claim7_with_shape_and_type (var : RVar) (shape : Option (List Nat)) (t : Option Nat) :
    (var.v.shape = shape ∧ var.v.ty = t →
      PyExprMutator.with_shape_and_type var shape t = var)
    ∧ (¬(var.v.shape = shape ∧ var.v.ty = t) →
      (PyExprMutator.with_shape_and_type var shape t).v.shape = shape
      ∧ (PyExprMutator.with_shape_and_type var shape t).v.ty = t
      ∧ PyExprMutator.with_shape_and_type var shape t ≠ var
      ∧ (PyExprMutator.with_shape_and_type var shape t).df = var.df
      ∧ (PyExprMutator.with_shape_and_type var shape t).v.vid = var.v.vid
      ∧ (PyExprMutator.with_shape_and_type var shape t).v.name = var.v.name) := by
  constructor
  · intro h
    simp [PyExprMutator.with_shape_and_type, h.1, h.2]
  · intro h
    have hne : PyExprMutator.with_shape_and_type var shape t
        = ⟨var.df, { var.v with shape := shape, ty := t }⟩ := by
      simp [PyExprMutator.with_shape_and_type, if_neg h]
    rw [hne]
    refine ⟨rfl, rfl, ?_, rfl, rfl, rfl⟩
    intro heq
    apply h
    have h1 := congrArg (fun r : RVar => r.v.shape) heq
    have h2 := congrArg (fun r : RVar => r.v.ty) heq
    simp only at h1 h2
    exact ⟨h1.symm, h2.symm⟩

/-- C7 witness: on the annotated variable `w`, matching annotations give
back `w` itself and differing annotations give a different variable. -/
theorem claim7_with_shape_and_type_witness :
    PyExprMutator.with_shape_and_type sampleAnnVar (some [2]) (some 1) = sampleAnnVar
    ∧ PyExprMutator.with_shape_and_type sampleAnnVar none none ≠ sampleAnnVar :=
  ⟨(claim7_with_shape_and_type sampleAnnVar (some [2]) (some 1)).1 ⟨rfl, rfl⟩,
   ((claim7_with_shape_and_type sampleAnnVar none none).2 (by simp [sampleAnnVar])).2.2.1⟩

/-- C3: constructing a mutator that supplies both the direct override
`visit_K_` and the post-order hook `rewrite_K_post_order` for the same
node kind `K` fails at construction time with the configuration error,
before any traversal can run. -/
theorem claim3_override_hook_exclusion (cfg : MutCfg) (k : NodeKind)
    (h1 : (cfg.directOverride k).isSome = true)
    (h2 : (cfg.postOrderHook k).isSome = true) :
    mkPyExprMutator cfg
      = .error (.typeError "Cannot override visit function and post-order rewrite at the same time") := by
  have hc : cfg.hasConflict = true := by
    unfold MutCfg.hasConflict
    rw [List.any_eq_true]
    refine ⟨k, ?_, ?_⟩
    · cases k <;> simp [allNodeKinds]
    · simp [h1, h2]
  simp [mkPyExprMutator, hc]

/-- C3 witness: the configuration supplying both `visit_call_` and
`rewrite_call_post_order` is rejected by construction. -/
theorem claim3_override_hook_exclusion_witness :
    mkPyExprMutator cfgConflict
      = .error (.typeError "Cannot override visit function and post-order rewrite at the same time") :=
  claim3_override_hook_exclusion cfgConflict .call rfl rfl

/-- C1: on a visitor with no supplied handlers, invoking any per-node-kind
handler (`visit_constant_`, `visit_tuple_`, `visit_var_`,
`visit_dataflow_var_`, `visit_shape_expr_`, `visit_runtime_dep_shape_`,
`visit_extern_func_`, `visit_global_var_`, `visit_function_`,
`visit_call_`, `visit_seq_expr_`, `visit_if_`, `visit_op_`,
`visit_tuple_getitem_`, `visit_var_binding_`, `visit_match_shape_`,
`visit_binding_block_`, `visit_dataflow_block_`, `visit_var_def_`,
`visit_dataflow_var_def_`, `visit_type`, `visit_span`) raises the
unimplemented-handler error, never a silent no-op, while the four
generic dispatchers (`visit_expr`, `visit_binding`,
`visit_binding_block`, `visit_var_def`) have working defaults and
succeed without raising. -/
theorem claim1_unimplemented_handlers_raise
    (e : Expr) (b : Binding) (bl : BBlock) (r : RVar) (t sp : Nat) :
    PyExprVisitor.visit_constant_ defaultVisCfg e = .error .notImplementedError
    ∧ PyExprVisitor.visit_tuple_ defaultVisCfg e = .error .notImplementedError
    ∧ PyExprVisitor.visit_var_ defaultVisCfg e = .error .notImplementedError
    ∧ PyExprVisitor.visit_dataflow_var_ defaultVisCfg e = .error .notImplementedError
    ∧ PyExprVisitor.visit_shape_expr_ defaultVisCfg e = .error .notImplementedError
    ∧ PyExprVisitor.visit_runtime_dep_shape_ defaultVisCfg e = .error .notImplementedError
    ∧ PyExprVisitor.visit_extern_func_ defaultVisCfg e = .error .notImplementedError
    ∧ PyExprVisitor.visit_global_var_ defaultVisCfg e = .error .notImplementedError
    ∧ PyExprVisitor.visit_function_ defaultVisCfg e = .error .notImplementedError
    ∧ PyExprVisitor.visit_call_ defaultVisCfg e = .error .notImplementedError
    ∧ PyExprVisitor.visit_seq_expr_ defaultVisCfg e = .error .notImplementedError
    ∧ PyExprVisitor.visit_if_ defaultVisCfg e = .error .notImplementedError
    ∧ PyExprVisitor.visit_op_ defaultVisCfg e = .error .notImplementedError
    ∧ PyExprVisitor.visit_tuple_getitem_ defaultVisCfg e = .error .notImplementedError
    ∧ PyExprVisitor.visit_var_binding_ defaultVisCfg b = .error .notImplementedError
    ∧ PyExprVisitor.visit_match_shape_ defaultVisCfg b = .error .notImplementedError
    ∧ PyExprVisitor.visit_binding_block_ defaultVisCfg bl = .error .notImplementedError
    ∧ PyExprVisitor.visit_dataflow_block_ defaultVisCfg bl = .error .notImplementedError
    ∧ PyExprVisitor.visit_var_def_ defaultVisCfg r = .error .notImplementedError
    ∧ PyExprVisitor.visit_dataflow_var_def_ defaultVisCfg r = .error .notImplementedError
    ∧ PyExprVisitor.visit_type defaultVisCfg t = .error .notImplementedError
    ∧ PyExprVisitor.visit_span defaultVisCfg sp = .error .notImplementedError
    ∧ PyExprVisitor.visit_expr defaultVisCfg e = .ok ()
    ∧ PyExprVisitor.visit_binding defaultVisCfg b = .ok ()
    ∧ PyExprVisitor.visit_binding_block defaultVisCfg bl = .ok ()
    ∧ PyExprVisitor.visit_var_def defaultVisCfg r = .ok () :=
  ⟨rfl, rfl, rfl, rfl, rfl, rfl, rfl, rfl, rfl, rfl, rfl, rfl, rfl, rfl, rfl, rfl,
   rfl, rfl, rfl, rfl, rfl, rfl,
   vis_default_expr_ok e, vis_default_binding_ok b, vis_default_block_ok bl,
   visit_var_def_default_ok r⟩

/-- C2: a mutator with no supplied post-order hooks behaves exactly as
the mutator whose every `rewrite_K_post_order` hook is the identity
function: the hook application step on an unsupplied hook returns the
reconstructed node unchanged without raising, and the whole traversal
coincides with the identity-hook traversal on every expression and
state; by contrast, invoking an unsupplied direct per-kind override
(`visit_K_`) raises the unimplemented-handler error. -/
theorem claim2_unsupplied_hook_is_identity (st : MState) (e : Expr) :
    PyExprMutator.visit_expr defaultMutCfg st e
      = PyExprMutator.visit_expr idHooksMutCfg st e
    ∧ PyExprMutator.post_order_step none e st = .ok (e, st)
    ∧ PyExprMutator.visit_constant_ defaultMutCfg e = .error .notImplementedError
    ∧ PyExprMutator.visit_tuple_ defaultMutCfg e = .error .notImplementedError
    ∧ PyExprMutator.visit_var_ defaultMutCfg e = .error .notImplementedError
    ∧ PyExprMutator.visit_dataflow_var_ defaultMutCfg e = .error .notImplementedError
    ∧ PyExprMutator.visit_shape_expr_ defaultMutCfg e = .error .notImplementedError
    ∧ PyExprMutator.visit_runtime_dep_shape_ defaultMutCfg e = .error .notImplementedError
    ∧ PyExprMutator.visit_extern_func_ defaultMutCfg e = .error .notImplementedError
    ∧ PyExprMutator.visit_global_var_ defaultMutCfg e = .error .notImplementedError
    ∧ PyExprMutator.visit_function_ defaultMutCfg e = .error .notImplementedError
    ∧ PyExprMutator.visit_call_ defaultMutCfg e = .error .notImplementedError
    ∧ PyExprMutator.visit_seq_expr_ defaultMutCfg e = .error .notImplementedError
    ∧ PyExprMutator.visit_if_ defaultMutCfg e = .error .notImplementedError
    ∧ PyExprMutator.visit_op_ defaultMutCfg e = .error .notImplementedError
    ∧ PyExprMutator.visit_tuple_getitem_ defaultMutCfg e = .error .notImplementedError :=
  ⟨hooks_eq_expr e st, rfl, rfl, rfl, rfl, rfl, rfl, rfl, rfl, rfl, rfl, rfl, rfl,
   rfl, rfl, rfl⟩

/-- C5: the fully-default mutator (no direct overrides, identity-defaulted
post-order hooks), started with an empty remap table, maps every
well-formed expression tree to a structurally identical tree — variable
identities and struct-info annotations are preserved since the returned
tree is equal to the input; only the builder's binding table may have
grown. -/
theorem claim5_identity_mutation_fixed_point (e : Expr) (st : MState)
    (h : st.remap = []) (hw : wfExpr e = true) :
    ∃ tbl, PyExprMutator.visit_expr defaultMutCfg st e
      = .ok (e, ⟨[], tbl, st.emitted⟩) :=
  mut_id_expr e st h hw

/-- C5 witness: identity mutation of the sample program `y = add(x, x);
return y` returns it unchanged. -/
theorem claim5_identity_mutation_fixed_point_witness :
    ∃ tbl, PyExprMutator.visit_expr defaultMutCfg mState0 sampleExpr
      = .ok (sampleExpr, ⟨[], tbl, []⟩) :=
  claim5_identity_mutation_fixed_point sampleExpr mState0 rfl rfl

/-- C4: after `set_var_remap(old_id, new_var)`, a use-site visit (via
`visit_expr`) of a `Var` or `DataflowVar` whose id is `old_id` yields
`new_var`; a use-site visit of a variable whose id is not remapped
yields the original variable unchanged; and `visit_with_new_scope`
restores the remap table at scope exit, so remaps registered inside the
scope do not affect visits outside it. -/
theorem claim4_var_remap_consistency (st : MState) (old_id : Nat) (new_var : RVar) :
    (∀ v : VarData, v.vid = old_id →
      PyExprMutator.visit_expr defaultMutCfg
          (PyExprMutator.set_var_remap st old_id new_var) (.evar v)
        = .ok (new_var.toExpr, PyExprMutator.set_var_remap st old_id new_var))
    ∧ (∀ v : VarData, v.vid = old_id →
      PyExprMutator.visit_expr defaultMutCfg
          (PyExprMutator.set_var_remap st old_id new_var) (.dataflowVar v)
        = .ok (new_var.toExpr, PyExprMutator.set_var_remap st old_id new_var))
    ∧ (∀ v : VarData,
      List.lookup v.vid (PyExprMutator.set_var_remap st old_id new_var).remap = none →
      PyExprMutator.visit_expr defaultMutCfg
          (PyExprMutator.set_var_remap st old_id new_var) (.evar v)
        = .ok (.evar v, PyExprMutator.set_var_remap st old_id new_var))
    ∧ (∀ (e e' : Expr) (st' : MState),
      PyExprMutator.visit_with_new_scope defaultMutCfg st e = .ok (e', st') →
      st'.remap = st.remap) := by
  refine ⟨?_, ?_, ?_, ?_⟩
  · intro v hv
    simp [PyExprMutator.visit_expr, defaultMutCfg, PyExprMutator.set_var_remap,
      PyExprMutator.post_order_step, List.lookup, hv]
  · intro v hv
    simp [PyExprMutator.visit_expr, defaultMutCfg, PyExprMutator.set_var_remap,
      PyExprMutator.post_order_step, List.lookup, hv]
  · intro v hnone
    simp only [PyExprMutator.set_var_remap] at hnone
    simp [PyExprMutator.visit_expr, defaultMutCfg, PyExprMutator.set_var_remap,
      PyExprMutator.post_order_step, hnone]
  · intro e e' st' h
    unfold PyExprMutator.visit_with_new_scope at h
    cases hv : PyExprMutator.visit_expr defaultMutCfg st e with
    | error err => rw [hv] at h; exact absurd h (by simp)
    | ok p =>
      obtain ⟨e'', st''⟩ := p
      rw [hv] at h
      simp only [Except.ok.injEq, Prod.mk.injEq] at h
      rw [← h.2]

/-- C4 witness: remapping id 1 to `z` makes a use-site visit of `x`
(id 1) yield `z`, and a scope opened and closed around a constant leaves
the outer remap table unchanged. -/
theorem claim4_var_remap_consistency_witness :
    PyExprMutator.visit_expr defaultMutCfg
        (PyExprMutator.set_var_remap mState0 1 sampleNewVar) (.evar sampleVarX)
      = .ok (sampleNewVar.toExpr, PyExprMutator.set_var_remap mState0 1 sampleNewVar)
    ∧ mState0.remap = mState0.remap :=
  ⟨(claim4_var_remap_consistency mState0 1 sampleNewVar).1 sampleVarX rfl,
   (claim4_var_remap_consistency mState0 1 sampleNewVar).2.2.2 (.constant 0) (.constant 0)
     mState0 rfl⟩

/-- C6: `lookup_binding(var)` returns the right-hand-side expression most
recently bound to `var`: visiting a `VarBinding` of `var` (from any state
with an empty remap table and a well-formed value) records the binding,
and looking `var` up afterwards returns exactly that bound value, newer
entries shadowing older ones; visiting function parameters
(`visit_var_def` over the parameter list) records nothing in the binding
table, so looking up a function parameter returns `none`. -/
theorem claim6_lookup_binding :
    (∀ (st : MState) (var : RVar) (value : Expr), st.remap = [] → wfExpr value = true →
      ∃ st', PyExprMutator.visit_binding defaultMutCfg st (.varBinding var value) = .ok st'
        ∧ PyExprMutator.lookup_binding st' var = some value)
    ∧ (∀ (st : MState) (params : List RVar), st.bindingTable = [] →
      PyExprMutator.visit_var_def_list defaultMutCfg st params = .ok (params, st)
      ∧ ∀ r : RVar, PyExprMutator.lookup_binding st r = none) := by
  constructor
  · intro st var value h hw
    obtain ⟨re, tb, em⟩ := st
    simp only at h
    subst h
    obtain ⟨tbl1, h1⟩ := mut_id_expr value ⟨[], tb, em⟩ rfl hw
    have h2 := mut_visit_var_def_default ⟨[], tbl1, em⟩ var
    simp only [defaultMutCfg] at h1 h2 ⊢
    simp only [PyExprMutator.visit_binding, h1, h2]
    split
    · exact ⟨_, rfl, by
        simp [PyExprMutator.lookup_binding, PyExprMutator.emit_binding, List.lookup]⟩
    · exact ⟨_, rfl, by
        simp [PyExprMutator.lookup_binding, PyExprMutator.emit_binding,
          PyExprMutator.set_var_remap, List.lookup, wst_vid]⟩
  · intro st params h
    refine ⟨mut_visit_var_def_list_default st params, ?_⟩
    intro r
    simp [PyExprMutator.lookup_binding, h]

/-- C6 witness: after visiting the binding `y = 7` from the empty state,
`lookup_binding y` returns `7`; in the state in which only parameters
have been visited, `lookup_binding y` is absent. -/
theorem claim6_lookup_binding_witness :
    (∃ st', PyExprMutator.visit_binding defaultMutCfg mState0
        (.varBinding sampleRVarY (.constant 7)) = .ok st'
      ∧ PyExprMutator.lookup_binding st' sampleRVarY = some (.constant 7))
    ∧ PyExprMutator.lookup_binding mState0 sampleRVarY = none :=
  ⟨claim6_lookup_binding.1 mState0 sampleRVarY (.constant 7) rfl rfl,
   (claim6_lookup_binding.2 mState0 [sampleRVarY] rfl).2 sampleRVarY⟩

/-- C8: `call_packed(func, *args, sinfo_args, **kwargs)` raises
`ValueError` when `sinfo_args` is `None`; it converts a plain
struct-info element to itself and a callable or proxy element through
`asobject`; and for a list, tuple or single `sinfo_args` whose elements
convert successfully, it returns a `Call` whose operator is
`ExternFunc(func)`, whose arguments are `args`, and whose `sinfo_args`
is the normalized converted list. -/
theorem claim8_call_packed (func : String) (args : List Expr)
    (kwargs : List (String × String)) :
    call_packed func args .pynone kwargs
      = .error (.valueError "R.call_packed is required to have type_args")
    ∧ (∀ s, convert_sinfo_arg (.sinfo s) = .ok s)
    ∧ (∀ p, convert_sinfo_arg (.proxy p) = p.asobject)
    ∧ (∀ p, convert_sinfo_arg (.callableP p) = p.asobject)
    ∧ (∀ xs ss, convert_sinfo_args xs = .ok ss →
        (call_packed func args (.lst xs) kwargs).map (fun c => (c.op, c.args, c.sinfo_args))
          = .ok (.externFunc func, args, ss))
    ∧ (∀ xs ss, convert_sinfo_args xs = .ok ss →
        (call_packed func args (.tup xs) kwargs).map (fun c => (c.op, c.args, c.sinfo_args))
          = .ok (.externFunc func, args, ss))
    ∧ (∀ x s, convert_sinfo_arg x = .ok s →
        (call_packed func args (.single x) kwargs).map (fun c => (c.op, c.args, c.sinfo_args))
          = .ok (.externFunc func, args, [s])) := by
  refine ⟨rfl, fun _ => rfl, fun _ => rfl, fun _ => rfl, ?_, ?_, ?_⟩
  · intro xs ss h
    simp [call_packed, call_packed_tail, h, Except.map]
  · intro xs ss h
    simp [call_packed, call_packed_tail, h, Except.map]
  · intro x s h
    simp [call_packed, call_packed_tail, convert_sinfo_args, h, Except.map]

/-- C8 witness: a single callable proxy element is converted to its
tensor struct info and packed into the resulting call. -/
theorem claim8_call_packed_witness :
    (call_packed "vm.builtin" [.constant 1] (.single (.callableP sampleProxy)) []).map
        (fun c => (c.op, c.args, c.sinfo_args))
      = .ok (.externFunc "vm.builtin", [.constant 1], [sampleSInfo]) :=
  (claim8_call_packed "vm.builtin" [.constant 1] []).2.2.2.2.2.2
    (.callableP sampleProxy) sampleSInfo rfl

end Relax
